import Mathlib

/-!
Verification of the danp protocol core: shallow embedding of the header
codec, buffer pool, routing table, socket table and fragmentation layer,
with theorems checking the specification's claims against the code.
-/

namespace Danp

/-- Maximum size of a DANP packet payload in bytes (danp_defs.h). -/
def DANP_MAX_PACKET_SIZE : Nat := 128

/-- Size of the packet pool (danp_defs.h). -/
def DANP_POOL_SIZE : Nat := 20

/-- Size of the DANP header in bytes (danp_defs.h). -/
def DANP_HEADER_SIZE : Nat := 4

/-- Maximum number of retries for reliable transmission (danp_defs.h). -/
def DANP_RETRY_LIMIT : Nat := 3

/-- Maximum number of supported ports (danp_defs.h). -/
def DANP_MAX_PORTS : Nat := 64

/-- Maximum number of supported nodes (danp_defs.h). -/
def DANP_MAX_NODES : Nat := 256

/-- Maximum user data per SFP fragment: 128 - 4 - 1 = 123 (danp_defs.h). -/
def DANP_SFP_MAX_DATA_PER_FRAGMENT : Nat :=
  DANP_MAX_PACKET_SIZE - DANP_HEADER_SIZE - 1

/-- Maximum number of fragments per message (danp_defs.h). -/
def DANP_SFP_MAX_FRAGMENTS : Nat := 255

/-- SFP flag bit: more fragments follow (danp_defs.h). -/
def DANP_SFP_FLAG_MORE : Nat := 0x80

/-- SFP flag bit: first fragment (danp_defs.h). -/
def DANP_SFP_FLAG_BEGIN : Nat := 0x40

/-- Control flag: none (danp_types.h). -/
def DANP_FLAG_NONE : Nat := 0x00

/-- Control flag: connection request (danp_types.h). -/
def DANP_FLAG_SYN : Nat := 0x01

/-- Control flag: acknowledge (danp_types.h). -/
def DANP_FLAG_ACK : Nat := 0x02

/-- Control flag: reset connection (danp_types.h). -/
def DANP_FLAG_RST : Nat := 0x04

/-- Size of the socket pool (danp_socket.c). -/
def DANP_MAX_SOCKET_COUNT : Nat := 20

/-- Embedding of danpPackHeader (src/src/danp.c, lines 55-73): packs the
32-bit wire header field by field, masking each field to its width; the
reset bit of the flag byte is placed at bit 31. -/
def danpPackHeader (prio dst src dstPort srcPort flags : Nat) : Nat :=
  let h1 := 0 ||| ((prio &&& 0x01) <<< 30)
  let h2 := if flags &&& DANP_FLAG_RST ≠ 0 then h1 ||| (1 <<< 31) else h1
  let h3 := h2 ||| ((dst &&& 0xFF) <<< 22)
  let h4 := h3 ||| ((src &&& 0xFF) <<< 14)
  let h5 := h4 ||| ((dstPort &&& 0x3F) <<< 8)
  let h6 := h5 ||| ((srcPort &&& 0x3F) <<< 2)
  h6 ||| (flags &&& 0x03)

/-- Embedding of danpUnpackHeader (src/src/danp.c, lines 84-97): extracts
(dst, src, dstPort, srcPort, flags); if bit 31 of the raw header is set,
0x04 is merged into the returned flag byte. -/
def danpUnpackHeader (raw : Nat) : Nat × Nat × Nat × Nat × Nat :=
  let dst := (raw >>> 22) &&& 0xFF
  let src := (raw >>> 14) &&& 0xFF
  let dstPort := (raw >>> 8) &&& 0x3F
  let srcPort := (raw >>> 2) &&& 0x3F
  let f0 := raw &&& 0x03
  let f := if raw &&& (1 <<< 31) ≠ 0 then f0 ||| DANP_FLAG_RST else f0
  (dst, src, dstPort, srcPort, f)

/-- An OR with a low part strictly below the alignment of the high part is
an addition. -/
theorem or_add_of_lt (i a b : Nat) (ha : 2 ^ i ∣ a) (hb : b < 2 ^ i) :
    a ||| b = a + b := by
  obtain ⟨c, rfl⟩ := ha
  exact (Nat.mul_add_lt_is_or hb c).symm

/-- Masking with 0xFF is reduction modulo 256. -/
theorem and_255_eq_mod (x : Nat) : x &&& 0xFF = x % 256 := by
  have h := Nat.and_pow_two_sub_one_eq_mod x 8
  norm_num at h
  exact h

/-- Masking with 0x3F is reduction modulo 64. -/
theorem and_63_eq_mod (x : Nat) : x &&& 0x3F = x % 64 := by
  have h := Nat.and_pow_two_sub_one_eq_mod x 6
  norm_num at h
  exact h

/-- Masking with 0x03 is reduction modulo 4. -/
theorem and_3_eq_mod (x : Nat) : x &&& 0x03 = x % 4 := by
  have h := Nat.and_pow_two_sub_one_eq_mod x 2
  norm_num at h
  exact h

/-- Collapse of the OR tree of danpPackHeader when the reset bit is set. -/
theorem packOrs1 (p d s dp sp f : Nat) (hp : p < 2) (hd : d < 256)
    (hs : s < 256) (hdp : dp < 64) (hsp : sp < 64) (hf : f < 4) :
    (((((p * 2 ^ 30 ||| 2 ^ 31) ||| d * 2 ^ 22) ||| s * 2 ^ 14) |||
      dp * 2 ^ 8) ||| sp * 2 ^ 2) ||| f =
      2 ^ 31 + p * 2 ^ 30 + d * 2 ^ 22 + s * 2 ^ 14 + dp * 2 ^ 8 +
        sp * 2 ^ 2 + f := by
  have e1 : p * 2 ^ 30 ||| 2 ^ 31 = 2 ^ 31 + p * 2 ^ 30 := by
    rw [Nat.or_comm]
    exact or_add_of_lt 31 _ _ ⟨1, by ring⟩ (by omega)
  have e2 : (2 ^ 31 + p * 2 ^ 30) ||| d * 2 ^ 22 =
      2 ^ 31 + p * 2 ^ 30 + d * 2 ^ 22 :=
    or_add_of_lt 30 _ _ ⟨2 + p, by ring⟩ (by omega)
  have e3 : (2 ^ 31 + p * 2 ^ 30 + d * 2 ^ 22) ||| s * 2 ^ 14 =
      2 ^ 31 + p * 2 ^ 30 + d * 2 ^ 22 + s * 2 ^ 14 :=
    or_add_of_lt 22 _ _ ⟨2 ^ 9 + p * 2 ^ 8 + d, by ring⟩ (by omega)
  have e4 : (2 ^ 31 + p * 2 ^ 30 + d * 2 ^ 22 + s * 2 ^ 14) ||| dp * 2 ^ 8 =
      2 ^ 31 + p * 2 ^ 30 + d * 2 ^ 22 + s * 2 ^ 14 + dp * 2 ^ 8 :=
    or_add_of_lt 14 _ _ ⟨2 ^ 17 + p * 2 ^ 16 + d * 2 ^ 8 + s, by ring⟩
      (by omega)
  have e5 : (2 ^ 31 + p * 2 ^ 30 + d * 2 ^ 22 + s * 2 ^ 14 + dp * 2 ^ 8) |||
        sp * 2 ^ 2 =
      2 ^ 31 + p * 2 ^ 30 + d * 2 ^ 22 + s * 2 ^ 14 + dp * 2 ^ 8 +
        sp * 2 ^ 2 :=
    or_add_of_lt 8 _ _
      ⟨2 ^ 23 + p * 2 ^ 22 + d * 2 ^ 14 + s * 2 ^ 6 + dp, by ring⟩ (by omega)
  have e6 : (2 ^ 31 + p * 2 ^ 30 + d * 2 ^ 22 + s * 2 ^ 14 + dp * 2 ^ 8 +
        sp * 2 ^ 2) ||| f =
      2 ^ 31 + p * 2 ^ 30 + d * 2 ^ 22 + s * 2 ^ 14 + dp * 2 ^ 8 +
        sp * 2 ^ 2 + f :=
    or_add_of_lt 2 _ _
      ⟨2 ^ 29 + p * 2 ^ 28 + d * 2 ^ 20 + s * 2 ^ 12 + dp * 2 ^ 6 + sp,
        by ring⟩ (by omega)
  rw [e1, e2, e3, e4, e5, e6]

/-- Collapse of the OR tree of danpPackHeader when the reset bit is clear. -/
theorem packOrs0 (p d s dp sp f : Nat) (hp : p < 2) (hd : d < 256)
    (hs : s < 256) (hdp : dp < 64) (hsp : sp < 64) (hf : f < 4) :
    ((((p * 2 ^ 30 ||| d * 2 ^ 22) ||| s * 2 ^ 14) ||| dp * 2 ^ 8) |||
      sp * 2 ^ 2) ||| f =
      p * 2 ^ 30 + d * 2 ^ 22 + s * 2 ^ 14 + dp * 2 ^ 8 + sp * 2 ^ 2 + f := by
  have e2 : p * 2 ^ 30 ||| d * 2 ^ 22 = p * 2 ^ 30 + d * 2 ^ 22 :=
    or_add_of_lt 30 _ _ ⟨p, by ring⟩ (by omega)
  have e3 : (p * 2 ^ 30 + d * 2 ^ 22) ||| s * 2 ^ 14 =
      p * 2 ^ 30 + d * 2 ^ 22 + s * 2 ^ 14 :=
    or_add_of_lt 22 _ _ ⟨p * 2 ^ 8 + d, by ring⟩ (by omega)
  have e4 : (p * 2 ^ 30 + d * 2 ^ 22 + s * 2 ^ 14) ||| dp * 2 ^ 8 =
      p * 2 ^ 30 + d * 2 ^ 22 + s * 2 ^ 14 + dp * 2 ^ 8 :=
    or_add_of_lt 14 _ _ ⟨p * 2 ^ 16 + d * 2 ^ 8 + s, by ring⟩ (by omega)
  have e5 : (p * 2 ^ 30 + d * 2 ^ 22 + s * 2 ^ 14 + dp * 2 ^ 8) |||
        sp * 2 ^ 2 =
      p * 2 ^ 30 + d * 2 ^ 22 + s * 2 ^ 14 + dp * 2 ^ 8 + sp * 2 ^ 2 :=
    or_add_of_lt 8 _ _ ⟨p * 2 ^ 22 + d * 2 ^ 14 + s * 2 ^ 6 + dp, by ring⟩
      (by omega)
  have e6 : (p * 2 ^ 30 + d * 2 ^ 22 + s * 2 ^ 14 + dp * 2 ^ 8 +
        sp * 2 ^ 2) ||| f =
      p * 2 ^ 30 + d * 2 ^ 22 + s * 2 ^ 14 + dp * 2 ^ 8 + sp * 2 ^ 2 + f :=
    or_add_of_lt 2 _ _
      ⟨p * 2 ^ 28 + d * 2 ^ 20 + s * 2 ^ 12 + dp * 2 ^ 6 + sp, by ring⟩
      (by omega)
  rw [e2, e3, e4, e5, e6]

/-- Arithmetic characterisation of the packed header: disjoint bit fields
become a sum. -/
theorem danpPackHeader_eq (prio dst src dstPort srcPort flags : Nat) :
    danpPackHeader prio dst src dstPort srcPort flags =
      (if flags &&& DANP_FLAG_RST ≠ 0 then 2 ^ 31 else 0) +
        prio % 2 * 2 ^ 30 + dst % 256 * 2 ^ 22 + src % 256 * 2 ^ 14 +
        dstPort % 64 * 2 ^ 8 + srcPort % 64 * 2 ^ 2 + flags % 4 := by
  unfold danpPackHeader
  simp only [Nat.zero_or, Nat.shiftLeft_eq, Nat.and_one_is_mod, and_255_eq_mod,
    and_63_eq_mod, and_3_eq_mod, one_mul]
  rcases Decidable.em (flags &&& DANP_FLAG_RST ≠ 0) with h | h
  · rw [if_pos h, if_pos h]
    rw [packOrs1 (prio % 2) (dst % 256) (src % 256) (dstPort % 64)
      (srcPort % 64) (flags % 4) (by omega) (by omega) (by omega) (by omega)
      (by omega) (by omega)]
  · rw [if_neg h, if_neg h]
    rw [packOrs0 (prio % 2) (dst % 256) (src % 256) (dstPort % 64)
      (srcPort % 64) (flags % 4) (by omega) (by omega) (by omega) (by omega)
      (by omega) (by omega)]
    omega

/-- Field extraction from the linear form of a packed header. -/
theorem headerFields (r p d s dp sp f4 X : Nat) (hr : r < 2) (hp : p < 2)
    (hd : d < 256) (hs : s < 256) (hdp : dp < 64) (hsp : sp < 64) (hf : f4 < 4)
    (hX : X = r * 2 ^ 31 + p * 2 ^ 30 + d * 2 ^ 22 + s * 2 ^ 14 +
      dp * 2 ^ 8 + sp * 2 ^ 2 + f4) :
    X / 2 ^ 22 % 256 = d ∧ X / 2 ^ 14 % 256 = s ∧ X / 2 ^ 8 % 64 = dp ∧
      X / 2 ^ 2 % 64 = sp ∧ X % 4 = f4 ∧ X / 2 ^ 31 = r := by
  subst hX
  refine ⟨by omega, by omega, by omega, by omega, by omega, by omega⟩

/-- C9: for every tuple with nodes in 8 bits, ports in 6 bits and flags a
combination of SYN (0x01), ACK (0x02) and RST (0x04), unpacking the packed
header returns exactly (dst, src, dstPort, srcPort, flags); the RST bit is
carried in header bit 31 (priority is not returned by unpack). -/
theorem danp_header_roundtrip (prio dst src dstPort srcPort flags : Nat)
    (hd : dst < 256) (hs : src < 256) (hdp : dstPort < 64) (hsp : srcPort < 64)
    (hf : flags < 8) :
    danpUnpackHeader (danpPackHeader prio dst src dstPort srcPort flags) =
      (dst, src, dstPort, srcPort, flags) ∧
    danpPackHeader prio dst src dstPort srcPort flags >>> 31 = flags / 4 := by
  have hEq := danpPackHeader_eq prio dst src dstPort srcPort flags
  have hr01 : flags / 4 = 0 ∨ flags / 4 = 1 := by omega
  have htb : flags &&& DANP_FLAG_RST = flags / 4 * 4 := by
    have hand : flags &&& DANP_FLAG_RST = (flags.testBit 2).toNat * 2 ^ 2 := by
      rw [DANP_FLAG_RST, show (4 : Nat) = 2 ^ 2 from by norm_num]
      exact Nat.and_two_pow flags 2
    have htbit : flags.testBit 2 = decide (flags / 4 % 2 = 1) := by
      rw [Nat.testBit_to_div_mod]
    rcases hr01 with h | h <;> simp [hand, htbit, h]
  rw [htb] at hEq
  have hXval : danpPackHeader prio dst src dstPort srcPort flags =
      flags / 4 * 2 ^ 31 + prio % 2 * 2 ^ 30 + dst * 2 ^ 22 + src * 2 ^ 14 +
        dstPort * 2 ^ 8 + srcPort * 2 ^ 2 + flags % 4 := by
    rw [hEq, Nat.mod_eq_of_lt hd, Nat.mod_eq_of_lt hs, Nat.mod_eq_of_lt hdp,
      Nat.mod_eq_of_lt hsp]
    rcases hr01 with h | h <;> rw [h] <;> simp
  generalize hP : danpPackHeader prio dst src dstPort srcPort flags = X
    at hXval ⊢
  obtain ⟨hc22, hc14, hc8, hc2, hc0, hc31⟩ :=
    headerFields (flags / 4) (prio % 2) dst src dstPort srcPort (flags % 4) X
      (by omega) (by omega) hd hs hdp hsp (by omega) hXval
  have h131 : (1 <<< 31 : Nat) = 2 ^ 31 := by rw [Nat.shiftLeft_eq]; ring
  refine ⟨?_, by rw [Nat.shiftRight_eq_div_pow]; exact hc31⟩
  simp only [danpUnpackHeader, Nat.shiftRight_eq_div_pow, and_255_eq_mod,
    and_63_eq_mod, and_3_eq_mod, h131, Nat.and_two_pow,
    Nat.testBit_to_div_mod, hc22, hc14, hc8, hc2, hc0, hc31]
  rcases hr01 with h | h
  · rw [h]
    have hfl : flags % 4 = flags := by omega
    simp [hfl]
  · rw [h]
    have hor : flags % 4 ||| DANP_FLAG_RST = flags := by
      rw [DANP_FLAG_RST, Nat.or_comm,
        or_add_of_lt 2 4 (flags % 4) ⟨1, by norm_num⟩ (by omega)]
      omega
    simp [hor]

/-- Concrete instance of the header round-trip at the spec edge values. -/
theorem danp_header_roundtrip_witness :
    danpUnpackHeader (danpPackHeader 1 0xFF 0xFF 0x3F 0x3F 0x07) =
      (0xFF, 0xFF, 0x3F, 0x3F, 0x07) ∧
    danpPackHeader 1 0xFF 0xFF 0x3F 0x3F 0x07 >>> 31 = 0x07 / 4 :=
  danp_header_roundtrip 1 0xFF 0xFF 0x3F 0x3F 0x07 (by norm_num) (by norm_num)
    (by norm_num) (by norm_num) (by norm_num)

/-! ### Buffer pool (src/src/danp_buffer.c) -/

/-- Initial free map of the packet pool: every slot free (danp_buffer_init,
src/src/danp_buffer.c). -/
def poolInit : List Bool := List.replicate DANP_POOL_SIZE true

/-- First-free-slot scan of danp_buffer_get, mirroring the for loop over the
free map. -/
def poolFindFree : List Bool → Nat → Option Nat
  | [], _ => none
  | b :: rest, k => if b then some k else poolFindFree rest (k + 1)

/-- Embedding of danp_buffer_get (src/src/danp_buffer.c, lines 77-118):
returns the first free slot marked busy, or none when the pool is empty. -/
def danp_buffer_get (m : List Bool) : List Bool × Option Nat :=
  match poolFindFree m 0 with
  | none => (m, none)
  | some i => (m.set i false, some i)

/-- Embedding of danp_buffer_free (src/src/danp_buffer.c, lines 124-169):
a packet pointer is modelled by its signed offset from the pool base; null,
out-of-pool offsets and already-free records are logged no-ops. -/
def danp_buffer_free (m : List Bool) (pkt : Option Int) : List Bool :=
  match pkt with
  | none => m
  | some idx =>
    if idx < 0 ∨ (DANP_POOL_SIZE : Int) ≤ idx then m
    else if m.getD idx.toNat false then m
    else m.set idx.toNat true

/-- Embedding of danp_buffer_free_chain (src/src/danp_buffer.c, lines
209-230): walks the next links, freeing each record; a null head is a no-op. -/
def danp_buffer_free_chain (m : List Bool) (chain : List (Option Int)) :
    List Bool :=
  chain.foldl danp_buffer_free m

/-- Embedding of danp_buffer_get_free_count (src/src/danp_buffer.c, lines
171-203): popcount of the free map. -/
def danp_buffer_get_free_count (m : List Bool) : Nat :=
  m.countP (fun b => b)

/-- Whether a free call actually releases a record (in-pool and currently
busy), used to track how many packets callers hold. -/
def freeSucceeds (m : List Bool) (pkt : Option Int) : Bool :=
  match pkt with
  | none => false
  | some idx =>
    if idx < 0 ∨ (DANP_POOL_SIZE : Int) ≤ idx then false
    else !(m.getD idx.toNat false)

/-- Ghost count of held packets across a chain free. -/
def chainGhost : List Bool → Nat → List (Option Int) → Nat
  | _, held, [] => held
  | m, held, p :: rest =>
    chainGhost (danp_buffer_free m p) (if freeSucceeds m p then held - 1 else held) rest

/-- Operations a caller can perform on the buffer pool. -/
inductive PoolOp where
  | get : PoolOp
  | free : Option Int → PoolOp
  | freeChain : List (Option Int) → PoolOp

/-- One pool operation on the free map paired with the ghost held count. -/
def poolStep (s : List Bool × Nat) (op : PoolOp) : List Bool × Nat :=
  match op with
  | PoolOp.get =>
    match danp_buffer_get s.1 with
    | (m2, none) => (m2, s.2)
    | (m2, some _) => (m2, s.2 + 1)
  | PoolOp.free p =>
    (danp_buffer_free s.1 p, if freeSucceeds s.1 p then s.2 - 1 else s.2)
  | PoolOp.freeChain ps =>
    (danp_buffer_free_chain s.1 ps, chainGhost s.1 s.2 ps)

/-- Execution of a sequence of pool operations from the initial pool. -/
def poolExec (ops : List PoolOp) : List Bool × Nat :=
  ops.foldl poolStep (poolInit, 0)

/-- Replacing one list entry exchanges its contribution to a count. -/
theorem countP_set_add (p : Bool → Bool) (l : List Bool) :
    ∀ (i : Nat) (b : Bool), i < l.length →
      (l.set i b).countP p + (if p (l.getD i false) then 1 else 0) =
        l.countP p + (if p b then 1 else 0) := by
  induction l with
  | nil => intro i b h; simp at h
  | cons a t ih =>
    intro i b h
    cases i with
    | zero =>
      simp only [List.set_cons_zero, List.countP_cons, List.getD_cons_zero]
      omega
    | succ j =>
      simp only [List.set_cons_succ, List.countP_cons, List.getD_cons_succ]
      have := ih j b (by simpa using Nat.lt_of_succ_lt_succ h)
      omega

/-- The free entries and the busy entries of a map partition its length. -/
theorem countP_free_busy (l : List Bool) :
    l.countP (fun b => b) + l.countP (fun b => !b) = l.length := by
  induction l with
  | nil => simp
  | cons a t ih => cases a <;> simp [List.countP_cons] <;> omega

/-- A successful first-free scan yields an in-range free slot. -/
theorem poolFindFree_spec (m : List Bool) :
    ∀ (k i : Nat), poolFindFree m k = some i →
      k ≤ i ∧ i - k < m.length ∧ m.getD (i - k) false = true := by
  induction m with
  | nil => intro k i h; simp [poolFindFree] at h
  | cons b rest ih =>
    intro k i h
    by_cases hb : b = true
    · rw [poolFindFree, hb, if_pos rfl] at h
      obtain rfl : k = i := by injection h
      simp [hb]
    · have hb0 : b = false := by
        cases b
        · rfl
        · exact absurd rfl hb
      rw [poolFindFree, hb0] at h
      simp only [Bool.false_eq_true, if_false] at h
      obtain ⟨h1, h2, h3⟩ := ih (k + 1) i h
      refine ⟨by omega, by simp; omega, ?_⟩
      have hik : i - k = (i - (k + 1)) + 1 := by omega
      rw [hik, List.getD_cons_succ]
      exact h3

/-- Invariant tying the free map to the ghost held count. -/
def PoolInv (s : List Bool × Nat) : Prop :=
  s.1.length = DANP_POOL_SIZE ∧ s.1.countP (fun b => !b) = s.2

/-- The initial pool satisfies the pool invariant. -/
theorem poolInv_init : PoolInv (poolInit, 0) :=
  ⟨by decide, by decide⟩

/-- Freeing one pointer preserves the pool invariant. -/
theorem poolInv_free (m : List Bool) (held : Nat) (p : Option Int)
    (h : PoolInv (m, held)) :
    PoolInv (danp_buffer_free m p,
      if freeSucceeds m p then held - 1 else held) := by
  obtain ⟨hlen, hcnt⟩ := h
  simp only at hlen hcnt
  cases p with
  | none =>
    simp only [danp_buffer_free, freeSucceeds, Bool.false_eq_true, if_false]
    exact ⟨hlen, hcnt⟩
  | some idx =>
    by_cases hrange : idx < 0 ∨ (DANP_POOL_SIZE : Int) ≤ idx
    · simp only [danp_buffer_free, freeSucceeds, if_pos hrange,
        Bool.false_eq_true, if_false]
      exact ⟨hlen, hcnt⟩
    · cases hgd : m.getD idx.toNat false with
      | true =>
        simp only [danp_buffer_free, freeSucceeds, if_neg hrange, hgd,
          Bool.not_true, Bool.false_eq_true, if_false, if_true]
        exact ⟨hlen, hcnt⟩
      | false =>
        simp only [danp_buffer_free, freeSucceeds, if_neg hrange, hgd,
          Bool.not_false, Bool.false_eq_true, if_false, if_true]
        have hi : idx.toNat < m.length := by
          simp only [DANP_POOL_SIZE] at hrange
          rw [hlen]
          simp only [DANP_POOL_SIZE]
          omega
        have hset := countP_set_add (fun b => !b) m idx.toNat true hi
        rw [hgd] at hset
        simp at hset
        refine ⟨by simpa using hlen, ?_⟩
        simp only
        omega

/-- Allocating one packet preserves the pool invariant. -/
theorem poolInv_get (m : List Bool) (held : Nat) (h : PoolInv (m, held)) :
    PoolInv (poolStep (m, held) PoolOp.get) := by
  obtain ⟨hlen, hcnt⟩ := h
  simp only at hlen hcnt
  cases hf : poolFindFree m 0 with
  | none =>
    simp only [poolStep, danp_buffer_get, hf]
    exact ⟨hlen, hcnt⟩
  | some i =>
    simp only [poolStep, danp_buffer_get, hf]
    obtain ⟨-, hlt, hget⟩ := poolFindFree_spec m 0 i hf
    simp only [Nat.sub_zero] at hlt hget
    have hset := countP_set_add (fun b => !b) m i false hlt
    rw [hget] at hset
    simp at hset
    refine ⟨by simpa using hlen, ?_⟩
    simp only
    omega

/-- Freeing a whole chain preserves the pool invariant. -/
theorem poolInv_chain (ps : List (Option Int)) :
    ∀ (m : List Bool) (held : Nat), PoolInv (m, held) →
      PoolInv (danp_buffer_free_chain m ps, chainGhost m held ps) := by
  induction ps with
  | nil => intro m held h; exact h
  | cons p rest ih =>
    intro m held h
    have h1 := poolInv_free m held p h
    have e1 : danp_buffer_free_chain m (p :: rest) =
        danp_buffer_free_chain (danp_buffer_free m p) rest := rfl
    have e2 : chainGhost m held (p :: rest) =
        chainGhost (danp_buffer_free m p)
          (if freeSucceeds m p then held - 1 else held) rest := rfl
    rw [e1, e2]
    exact ih _ _ h1

/-- Every pool operation preserves the pool invariant. -/
theorem poolInv_step (s : List Bool × Nat) (op : PoolOp) (h : PoolInv s) :
    PoolInv (poolStep s op) := by
  obtain ⟨m, held⟩ := s
  cases op with
  | get => exact poolInv_get m held h
  | free p => exact poolInv_free m held p h
  | freeChain ps => exact poolInv_chain ps m held h

/-- Executing any operation sequence preserves the pool invariant. -/
theorem poolInv_exec (ops : List PoolOp) :
    ∀ s : List Bool × Nat, PoolInv s → PoolInv (ops.foldl poolStep s) := by
  induction ops with
  | nil => intro s h; exact h
  | cons op rest ih =>
    intro s h
    exact ih _ (poolInv_step s op h)

/-- C7: after any sequence of get, free and free_chain calls the free count
equals POOL_SIZE minus the number of packets held by callers; free of null,
free of an out-of-pool address, double free and free_chain of null are
no-ops. -/
theorem danp_pool_conservation :
    (∀ ops : List PoolOp,
      danp_buffer_get_free_count (poolExec ops).1 =
        DANP_POOL_SIZE - (poolExec ops).2) ∧
    (∀ m : List Bool, danp_buffer_free m none = m) ∧
    (∀ (m : List Bool) (idx : Int),
      idx < 0 ∨ (DANP_POOL_SIZE : Int) ≤ idx →
        danp_buffer_free m (some idx) = m) ∧
    (∀ (m : List Bool) (idx : Int), m.getD idx.toNat false = true →
      danp_buffer_free m (some idx) = m) ∧
    (∀ m : List Bool, danp_buffer_free_chain m [] = m) := by
  refine ⟨?_, fun m => rfl, ?_, ?_, fun m => rfl⟩
  · intro ops
    have hinv : PoolInv (poolExec ops) :=
      poolInv_exec ops (poolInit, 0) poolInv_init
    obtain ⟨hlen, hcnt⟩ := hinv
    have hpart := countP_free_busy (poolExec ops).1
    rw [danp_buffer_get_free_count]
    omega
  · intro m idx hr
    rw [danp_buffer_free, if_pos hr]
  · intro m idx hfree
    by_cases hrange : idx < 0 ∨ (DANP_POOL_SIZE : Int) ≤ idx
    · rw [danp_buffer_free, if_pos hrange]
    · rw [danp_buffer_free, if_neg hrange, if_pos hfree]

/-- Concrete instance of pool conservation: a short operation sequence with
a double free, a null free and an out-of-pool free. -/
theorem danp_pool_conservation_witness :
    danp_buffer_get_free_count
        (poolExec [PoolOp.get, PoolOp.get, PoolOp.free (some 0),
          PoolOp.free (some 0), PoolOp.free none, PoolOp.free (some 25),
          PoolOp.freeChain [some 1]]).1 =
      DANP_POOL_SIZE -
        (poolExec [PoolOp.get, PoolOp.get, PoolOp.free (some 0),
          PoolOp.free (some 0), PoolOp.free none, PoolOp.free (some 25),
          PoolOp.freeChain [some 1]]).2 ∧
    danp_buffer_free [false, true] (some 25) = [false, true] :=
  ⟨danp_pool_conservation.1 _,
    danp_pool_conservation.2.2.1 [false, true] 25 (Or.inr (by decide))⟩

/-! ### Routing table (src/src/danp_route.c) -/

/-- Whitespace test matching C isspace on the characters the route parser
can meet. -/
def isSpaceChar (c : Char) : Bool :=
  c == ' ' || c == '\t' || c == '\n' || c == '\r' || c == '\x0B' || c == '\x0C'

/-- Embedding of danp_trim (src/src/danp_route.c, lines 90-110): strips
leading and trailing whitespace. -/
def danp_trim (s : List Char) : List Char :=
  ((s.dropWhile isSpaceChar).reverse.dropWhile isSpaceChar).reverse

/-- Delimiters of the route-entry tokenizer: newline and comma. -/
def isRouteDelim (c : Char) : Bool :=
  c == '\n' || c == ','

/-- Tokenization performed by strtok_r over "\n,": consecutive delimiters
yield no empty tokens. -/
def strtokSplit (s : List Char) : List (List Char) :=
  (List.splitOnP isRouteDelim s).filter (fun t => !t.isEmpty)

/-- Value of a hexadecimal digit character, if any. -/
def hexDigitVal (c : Char) : Option Nat :=
  if '0' ≤ c ∧ c ≤ '9' then some (c.toNat - '0'.toNat)
  else if 'a' ≤ c ∧ c ≤ 'f' then some (c.toNat - 'a'.toNat + 10)
  else if 'A' ≤ c ∧ c ≤ 'F' then some (c.toNat - 'A'.toNat + 10)
  else none

/-- Digit-consuming loop of strtoul: accumulates digits below the base and
returns the value, the number of digits consumed and the unconsumed rest. -/
def strtoulLoop (base : Nat) : List Char → Nat → Nat → Nat × Nat × List Char
  | [], acc, n => (acc, n, [])
  | c :: rest, acc, n =>
    match hexDigitVal c with
    | some d =>
      if d < base then strtoulLoop base rest (acc * base + d) (n + 1)
      else (acc, n, c :: rest)
    | none => (acc, n, c :: rest)

/-- Final value of strtoul: clamped to ULONG_MAX on overflow; a leading
minus sign negates in unsigned 64-bit arithmetic. -/
def strtoulFinalize (neg : Bool) (v : Nat) : Nat :=
  let clamped := if v ≥ 2 ^ 64 then 2 ^ 64 - 1 else v
  if neg then (if clamped = 0 then 0 else 2 ^ 64 - clamped) else clamped

/-- Model of C strtoul(nptr, endptr, 0): optional sign, then a 0x/0X hex
prefix, a leading-zero octal prefix or decimal digits; returns the value
and the unconsumed suffix (the endptr). With no digits consumed the value
is 0 and the endptr is the original string. -/
def danp_strtoul (s : List Char) : Nat × List Char :=
  let s1 := s.dropWhile isSpaceChar
  let signed :=
    match s1 with
    | '-' :: r => (true, r)
    | '+' :: r => (false, r)
    | _ => (false, s1)
  let neg := signed.1
  match signed.2 with
  | '0' :: x :: r =>
    if x = 'x' ∨ x = 'X' then
      let parsed := strtoulLoop 16 r 0 0
      if parsed.2.1 = 0 then (0, x :: r)
      else (strtoulFinalize neg parsed.1, parsed.2.2)
    else
      let parsed := strtoulLoop 8 (x :: r) 0 0
      (strtoulFinalize neg parsed.1, parsed.2.2)
  | ['0'] => (0, [])
  | other =>
    let parsed := strtoulLoop 10 other 0 0
    if parsed.2.1 = 0 then (0, s)
    else (strtoulFinalize neg parsed.1, parsed.2.2)

/-- Embedding of danp_find_interface_by_name (src/src/danp_route.c, lines
117-136), reduced to presence of the name in the registered list. -/
def danp_find_interface_by_name (ifaces : List (List Char))
    (nm : List Char) : Bool :=
  ifaces.contains nm

/-- In-place replace-or-append of a route entry, as the load loop does. -/
def routeInsert : List (Nat × List Char) → Nat → List Char →
    List (Nat × List Char)
  | [], d, nm => [(d, nm)]
  | (d0, n0) :: rest, d, nm =>
    if d0 = d then (d0, nm) :: rest
    else (d0, n0) :: routeInsert rest d nm

/-- Per-token loop of danp_route_table_load: every parse error resets the
accumulated table to empty and returns -1. -/
def loadLoop (ifaces : List (List Char)) :
    List (List Char) → List (Nat × List Char) → Int × List (Nat × List Char)
  | [], acc => (0, acc)
  | tok :: rest, acc =>
    let working := danp_trim tok
    if working.isEmpty then loadLoop ifaces rest acc
    else
      let pre := working.takeWhile (fun c => c != ':')
      if pre.length = working.length then (-1, [])
      else
        let dest_str := danp_trim pre
        let iface_str := danp_trim (working.drop (pre.length + 1))
        if dest_str.isEmpty ∨ iface_str.isEmpty then (-1, [])
        else
          let parsed := danp_strtoul dest_str
          if ¬parsed.2.isEmpty ∨ parsed.1 > 65535 then (-1, [])
          else if DANP_MAX_NODES ≤ acc.length then (-1, [])
          else if ¬danp_find_interface_by_name ifaces iface_str then (-1, [])
          else loadLoop ifaces rest (routeInsert acc parsed.1 iface_str)

/-- Embedding of danp_route_table_load (src/src/danp_route.c, lines
230-356): parses comma/newline separated "dest:iface" entries into a fresh
table; the previous table contents are discarded up front (route_count is
reset before the loop), an empty string loads an empty table. -/
def danp_route_table_load (ifaces : List (List Char)) (s : List Char) :
    Int × List (Nat × List Char) :=
  if s.length = 0 then (0, [])
  else loadLoop ifaces (strtokSplit s) []

/-- Every error exit of the load loop leaves the table empty. -/
theorem loadLoop_error_empty (ifaces : List (List Char)) :
    ∀ (toks : List (List Char)) (acc : List (Nat × List Char)),
      (loadLoop ifaces toks acc).1 < 0 → (loadLoop ifaces toks acc).2 = [] := by
  intro toks
  induction toks with
  | nil => intro acc h; simp [loadLoop] at h
  | cons tok rest ih =>
    intro acc
    simp only [loadLoop]
    split
    · exact ih acc
    · split
      · exact fun _ => rfl
      · split
        · exact fun _ => rfl
        · split
          · exact fun _ => rfl
          · split
            · exact fun _ => rfl
            · split
              · exact fun _ => rfl
              · exact ih _

/-- C6: whenever danp_route_table_load fails (missing colon, empty token,
non-numeric or out-of-range destination, unknown interface, or table
overflow), it returns a negative status and the routing table is left
empty, with no partially parsed entries. -/
theorem danp_route_load_atomic (ifaces : List (List Char)) (s : List Char)
    (h : (danp_route_table_load ifaces s).1 < 0) :
    (danp_route_table_load ifaces s).2 = [] := by
  revert h
  rw [danp_route_table_load]
  split
  · intro h
    simp at h
  · exact loadLoop_error_empty ifaces _ _

/-- Concrete instance of route-load atomicity: the second entry names an
unregistered interface, so the whole table is dropped. -/
theorem danp_route_load_atomic_witness :
    (danp_route_table_load [['i', 'f', '0']]
        ['1', ':', 'i', 'f', '0', ',', '2', ':', 'z', 'z']).1 < 0 ∧
    (danp_route_table_load [['i', 'f', '0']]
        ['1', ':', 'i', 'f', '0', ',', '2', ':', 'z', 'z']).2 = [] :=
  ⟨by decide,
    danp_route_load_atomic [['i', 'f', '0']]
      ['1', ':', 'i', 'f', '0', ',', '2', ':', 'z', 'z'] (by decide)⟩

/-- A registered network interface: name, local address, MTU and the
return value its tx callback produces (src/include/danp/danp_types.h). -/
structure DanpInterface where
  name : List Char
  address : Nat
  mtu : Nat
  txRet : Int
deriving DecidableEq

/-- A packet record: raw 32-bit header and payload bytes; the stored
length field always equals the payload length here
(src/include/danp/danp_types.h). -/
structure DanpPacket where
  header_raw : Nat
  payload : List Nat
deriving DecidableEq

/-- Embedding of danp_route_lookup (src/src/danp_route.c, lines 143-166):
first table entry whose destination matches. -/
def danp_route_lookup (table : List (Nat × DanpInterface)) (dest : Nat) :
    Option DanpInterface :=
  match table with
  | [] => none
  | (d, ifc) :: rest =>
    if d = dest then some ifc else danp_route_lookup rest dest

/-- Embedding of danp_route_tx (src/src/danp_route.c, lines 363-399):
unpacks the destination, looks it up, rejects with -1 when absent or when
header size plus payload length exceeds the interface MTU, and otherwise
invokes the tx callback; the second component records which interfaces
transmitted. -/
def danp_route_tx (table : List (Nat × DanpInterface)) (pkt : DanpPacket) :
    Int × List (List Char) :=
  let dst := (danpUnpackHeader pkt.header_raw).1
  match danp_route_lookup table dst with
  | none => (-1, [])
  | some out =>
    if pkt.payload.length + DANP_HEADER_SIZE > out.mtu then (-1, [])
    else (out.txRet, [out.name])

/-- C8: a packet with no route is rejected without transmitting; a routed
packet whose header plus payload exceeds the interface MTU is rejected
without transmitting; otherwise the interface tx callback is invoked. -/
theorem danp_route_tx_mtu (table : List (Nat × DanpInterface))
    (pkt : DanpPacket) :
    (danp_route_lookup table (danpUnpackHeader pkt.header_raw).1 = none →
      danp_route_tx table pkt = (-1, [])) ∧
    (∀ out : DanpInterface,
      danp_route_lookup table (danpUnpackHeader pkt.header_raw).1 =
          some out →
        (pkt.payload.length + DANP_HEADER_SIZE > out.mtu →
          danp_route_tx table pkt = (-1, [])) ∧
        (pkt.payload.length + DANP_HEADER_SIZE ≤ out.mtu →
          danp_route_tx table pkt = (out.txRet, [out.name]))) := by
  constructor
  · intro hnone
    rw [danp_route_tx, hnone]
  · intro out hsome
    constructor
    · intro hbig
      rw [danp_route_tx, hsome]
      simp only [if_pos hbig]
    · intro hfit
      rw [danp_route_tx, hsome]
      simp only [if_neg (Nat.not_lt.mpr hfit)]

/-- Concrete instance of MTU enforcement: a five-byte payload with a
four-byte header does not fit an MTU of eight, and the tx callback is not
invoked. -/
theorem danp_route_tx_mtu_witness :
    danp_route_tx
        [(0, DanpInterface.mk ['l', 'o'] 0 8 0)]
        (DanpPacket.mk 0 [1, 2, 3, 4, 5]) = (-1, []) :=
  ((danp_route_tx_mtu [(0, DanpInterface.mk ['l', 'o'] 0 8 0)]
      (DanpPacket.mk 0 [1, 2, 3, 4, 5])).2
    (DanpInterface.mk ['l', 'o'] 0 8 0) (by decide)).1 (by decide)

/-! ### Socket records and lookup (src/src/danp_socket.c) -/

/-- Socket states (danp_socket_state_e, src/include/danp/danp_types.h). -/
inductive DanpSockState where
  | sockClosed
  | sockOpen
  | sockListening
  | sockSynSent
  | sockSynReceived
  | sockEstablished
deriving DecidableEq

/-- Socket types (danp_socket_type_e, src/include/danp/danp_types.h). -/
inductive DanpSockType where
  | typeDgram
  | typeStream
deriving DecidableEq

/-- A socket record (danp_socket_s, src/include/danp/danp_types.h). The
receive queue holds packet pointers, which may be the null sentinel posted
on reset; the accept queue holds child slot indices. -/
structure DanpSocket where
  state : DanpSockState
  type : DanpSockType
  local_port : Nat
  local_node : Nat
  remote_node : Nat
  remote_port : Nat
  tx_seq : Nat
  rx_expected_seq : Nat
  rx_queue : List (Option DanpPacket)
  accept_queue : List Nat
deriving DecidableEq

/-- Exact peer match of danp_find_socket: local port, remote node and
remote port all match and the socket is in a connected or half-open state. -/
def isExactPeer (lp rn rp : Nat) (s : DanpSocket) : Bool :=
  s.local_port == lp && s.remote_node == rn && s.remote_port == rp &&
    (s.state == DanpSockState.sockEstablished ||
     s.state == DanpSockState.sockSynSent ||
     s.state == DanpSockState.sockSynReceived)

/-- Wildcard match of danp_find_socket: local port matches and the socket
is a listener or an open datagram socket. -/
def isWildcard (lp : Nat) (s : DanpSocket) : Bool :=
  s.local_port == lp &&
    (s.state == DanpSockState.sockListening ||
     (s.type == DanpSockType.typeDgram && s.state == DanpSockState.sockOpen))

/-- Traversal loop of danp_find_socket (src/src/danp_socket.c, lines
75-111) over the materialised active list, with the 20-iteration safety
guard: the walk stops at the first socket on the right port that is either
an exact peer match or a wildcard match. -/
def danp_find_socket_go : List DanpSocket → Nat → Nat → Nat → Nat →
    Option DanpSocket
  | [], _, _, _, _ => none
  | cur :: rest, i, lp, rn, rp =>
    if DANP_MAX_SOCKET_COUNT ≤ i then none
    else if cur.local_port = lp then
      if cur.remote_node = rn ∧ cur.remote_port = rp ∧
          (cur.state = DanpSockState.sockEstablished ∨
           cur.state = DanpSockState.sockSynSent ∨
           cur.state = DanpSockState.sockSynReceived) then some cur
      else if cur.state = DanpSockState.sockListening ∨
          (cur.type = DanpSockType.typeDgram ∧
           cur.state = DanpSockState.sockOpen) then some cur
      else danp_find_socket_go rest (i + 1) lp rn rp
    else danp_find_socket_go rest (i + 1) lp rn rp

/-- Embedding of danp_find_socket (src/src/danp_socket.c, lines 75-111). -/
def danp_find_socket (socks : List DanpSocket) (lp rn rp : Nat) :
    Option DanpSocket :=
  danp_find_socket_go socks 0 lp rn rp

/-- Boolean exact-peer match unfolded to a proposition. -/
theorem isExactPeer_iff (lp rn rp : Nat) (s : DanpSocket) :
    isExactPeer lp rn rp s = true ↔
      s.local_port = lp ∧ s.remote_node = rn ∧ s.remote_port = rp ∧
        (s.state = DanpSockState.sockEstablished ∨
         s.state = DanpSockState.sockSynSent ∨
         s.state = DanpSockState.sockSynReceived) := by
  simp only [isExactPeer, Bool.and_eq_true, Bool.or_eq_true, beq_iff_eq]
  tauto

/-- Boolean wildcard match unfolded to a proposition. -/
theorem isWildcard_iff (lp : Nat) (s : DanpSocket) :
    isWildcard lp s = true ↔
      s.local_port = lp ∧
        (s.state = DanpSockState.sockListening ∨
         (s.type = DanpSockType.typeDgram ∧
          s.state = DanpSockState.sockOpen)) := by
  simp only [isWildcard, Bool.and_eq_true, Bool.or_eq_true, beq_iff_eq]

/-- The find loop is a first-match search among exact-or-wildcard matches,
truncated by the safety guard. -/
theorem danp_find_socket_go_eq_find (lp rn rp : Nat) :
    ∀ (socks : List DanpSocket) (i : Nat),
      danp_find_socket_go socks i lp rn rp =
        (socks.take (DANP_MAX_SOCKET_COUNT - i)).find?
          (fun s => isExactPeer lp rn rp s || isWildcard lp s) := by
  intro socks
  induction socks with
  | nil => intro i; simp [danp_find_socket_go]
  | cons cur rest ih =>
    intro i
    rw [danp_find_socket_go]
    by_cases hi : DANP_MAX_SOCKET_COUNT ≤ i
    · rw [if_pos hi]
      have h0 : DANP_MAX_SOCKET_COUNT - i = 0 := by omega
      rw [h0]
      simp
    · rw [if_neg hi]
      have htake : DANP_MAX_SOCKET_COUNT - i =
          (DANP_MAX_SOCKET_COUNT - (i + 1)) + 1 := by omega
      rw [htake, List.take_succ_cons, List.find?_cons]
      by_cases hlp : cur.local_port = lp
      · by_cases hex : cur.remote_node = rn ∧ cur.remote_port = rp ∧
            (cur.state = DanpSockState.sockEstablished ∨
             cur.state = DanpSockState.sockSynSent ∨
             cur.state = DanpSockState.sockSynReceived)
        · have hT : (isExactPeer lp rn rp cur || isWildcard lp cur) = true := by
            rw [Bool.or_eq_true]
            exact Or.inl ((isExactPeer_iff lp rn rp cur).mpr
              ⟨hlp, hex.1, hex.2.1, hex.2.2⟩)
          rw [if_pos hlp, if_pos hex, hT]
        · by_cases hwc : cur.state = DanpSockState.sockListening ∨
              (cur.type = DanpSockType.typeDgram ∧
               cur.state = DanpSockState.sockOpen)
          · have hT : (isExactPeer lp rn rp cur || isWildcard lp cur) = true := by
              rw [Bool.or_eq_true]
              exact Or.inr ((isWildcard_iff lp cur).mpr ⟨hlp, hwc⟩)
            rw [if_pos hlp, if_neg hex, if_pos hwc, hT]
          · have hF : (isExactPeer lp rn rp cur || isWildcard lp cur) = false := by
              rw [Bool.or_eq_false_iff]
              constructor
              · rw [Bool.eq_false_iff]
                intro hA
                obtain ⟨-, h1, h2, h3⟩ := (isExactPeer_iff lp rn rp cur).mp hA
                exact hex ⟨h1, h2, h3⟩
              · rw [Bool.eq_false_iff]
                intro hB
                obtain ⟨-, hw⟩ := (isWildcard_iff lp cur).mp hB
                exact hwc hw
            rw [if_pos hlp, if_neg hex, if_neg hwc, hF]
            exact ih (i + 1)
      · have hF : (isExactPeer lp rn rp cur || isWildcard lp cur) = false := by
          rw [Bool.or_eq_false_iff]
          constructor
          · rw [Bool.eq_false_iff]
            intro hA
            exact hlp ((isExactPeer_iff lp rn rp cur).mp hA).1
          · rw [Bool.eq_false_iff]
            intro hB
            exact hlp ((isWildcard_iff lp cur).mp hB).1
        rw [if_neg hlp, hF]
        exact ih (i + 1)

/-- C1 (amended): danp_find_socket returns the first socket in active-list
order, among the first 20, that is an exact peer match or a wildcard
match; a wildcard earlier in the list therefore shadows an exact peer
match later in the list. -/
theorem danp_find_socket_first_match (socks : List DanpSocket)
    (lp rn rp : Nat) :
    danp_find_socket socks lp rn rp =
      (socks.take DANP_MAX_SOCKET_COUNT).find?
        (fun s => isExactPeer lp rn rp s || isWildcard lp s) := by
  rw [danp_find_socket, danp_find_socket_go_eq_find lp rn rp socks 0,
    Nat.sub_zero]

/-- A listening socket on port 5, placed ahead in the active list. -/
def c1ListenerSock : DanpSocket :=
  ⟨DanpSockState.sockListening, DanpSockType.typeStream, 5, 10, 0, 0, 0, 0,
    [], []⟩

/-- An established socket on port 5 connected to peer (1, 2), behind the
listener in the active list. -/
def c1ExactSock : DanpSocket :=
  ⟨DanpSockState.sockEstablished, DanpSockType.typeStream, 5, 10, 1, 2, 0, 0,
    [], []⟩

/-- C1 is false as stated: an exact peer match exists in the list, yet
danp_find_socket returns the earlier wildcard (listening) socket, which is
not an exact peer match. -/
theorem danp_find_socket_wildcard_shadows_exact :
    (∃ s ∈ [c1ListenerSock, c1ExactSock], isExactPeer 5 1 2 s = true) ∧
    danp_find_socket [c1ListenerSock, c1ExactSock] 5 1 2 =
      some c1ListenerSock ∧
    isExactPeer 5 1 2 c1ListenerSock = false := by
  refine ⟨⟨c1ExactSock, by decide, by decide⟩, by decide, by decide⟩

/-! ### Receive paths (src/src/danp_socket.c, danp_recv and danp_recv_from) -/

/-- Embedding of danp_recv (src/src/danp_socket.c, lines 642-673): the
return value starts at 0 and is only assigned when a packet is dequeued,
so an empty receive queue (timeout) yields 0; a dequeued null sentinel
(peer reset) also yields 0; otherwise the copied length is returned, with
the stream sequence byte stripped. -/
def danp_recv (sock : DanpSocket) (max_len : Nat) : Int :=
  match sock.rx_queue with
  | [] => 0
  | none :: _ => 0
  | some pkt :: _ =>
    if sock.type = DanpSockType.typeDgram then
      Int.ofNat (min pkt.payload.length max_len)
    else if 0 < pkt.payload.length then
      Int.ofNat (min (pkt.payload.length - 1) max_len)
    else 0

/-- Embedding of danp_recv_from (src/src/danp_socket.c, lines 935-983):
the return value starts at -1 and is only assigned when a packet is
dequeued, so a timeout yields -1. A null sentinel is never queued on a
DGRAM socket; that branch is kept at -1. -/
def danp_recv_from (sock : DanpSocket) (max_len : Nat) : Int :=
  if sock.type ≠ DanpSockType.typeDgram then -1
  else
    match sock.rx_queue with
    | [] => -1
    | none :: _ => -1
    | some pkt :: _ => Int.ofNat (min pkt.payload.length max_len)

/-- C5 fails on the code: on a receive queue that stays empty for the full
timeout, danp_recv returns 0 (not a negative error, contradicting its own
doc comment), while danp_recv_from returns -1. -/
theorem danp_recv_timeout_returns (sock : DanpSocket) (max_len : Nat)
    (h : sock.rx_queue = []) :
    danp_recv sock max_len = 0 ∧ danp_recv_from sock max_len = -1 := by
  constructor
  · rw [danp_recv, h]
  · rw [danp_recv_from]
    by_cases hty : sock.type ≠ DanpSockType.typeDgram
    · rw [if_pos hty]
    · rw [if_neg hty, h]

/-- A stream socket with an empty receive queue. -/
def c5Sock : DanpSocket :=
  ⟨DanpSockState.sockEstablished, DanpSockType.typeStream, 5, 10, 2, 7, 0, 0,
    [], []⟩

/-- Concrete instance of the timeout return values. -/
theorem danp_recv_timeout_returns_witness :
    danp_recv c5Sock 32 = 0 ∧ danp_recv_from c5Sock 32 = -1 :=
  danp_recv_timeout_returns c5Sock 32 rfl

/-! ### Stream send with stop-and-wait ARQ (src/src/danp_socket.c,
danp_send) -/

/-- Outcome of one iteration of the retry loop: the packet allocation
fails (the loop delays and retries without counting it), or a transmit
attempt happens and the ACK signal either fires or times out. -/
inductive SendEvent where
  | allocFail : SendEvent
  | attempt (ackReceived : Bool) : SendEvent
deriving DecidableEq

/-- Retry loop of danp_send (src/src/danp_socket.c, lines 588-614): up to
RETRY_LIMIT counted attempts; a buffer-allocation failure retries without
counting; an acknowledged attempt leaves the loop, increments tx_seq
modulo 256 and returns the length; exhausting the retries returns -1 with
tx_seq unchanged. The result is none when the event trace ends before the
loop does. -/
def danp_send_loop (table : List (Nat × DanpInterface)) (sock : DanpSocket)
    (payload : List Nat) : List SendEvent → Nat → Option (Int × Nat)
  | [], retries =>
    if DANP_RETRY_LIMIT ≤ retries then some (-1, sock.tx_seq) else none
  | e :: rest, retries =>
    if DANP_RETRY_LIMIT ≤ retries then some (-1, sock.tx_seq)
    else
      match e with
      | SendEvent.allocFail => danp_send_loop table sock payload rest retries
      | SendEvent.attempt ack =>
        let pkt : DanpPacket :=
          ⟨danpPackHeader 0 sock.remote_node sock.local_node sock.remote_port
            sock.local_port DANP_FLAG_NONE, sock.tx_seq :: payload⟩
        let _txres := danp_route_tx table pkt
        if ack then some (Int.ofNat payload.length, (sock.tx_seq + 1) % 256)
        else danp_send_loop table sock payload rest (retries + 1)

/-- Embedding of danp_send (src/src/danp_socket.c, lines 550-632): oversize
payloads are rejected, the DGRAM branch sends once and reports the length
regardless of the routing outcome, and the stream branch runs the ARQ
retry loop. The result pairs the return value with the final tx_seq. -/
def danp_send (table : List (Nat × DanpInterface)) (sock : DanpSocket)
    (payload : List Nat) (evs : List SendEvent) : Option (Int × Nat) :=
  if DANP_MAX_PACKET_SIZE - 1 < payload.length then some (-1, sock.tx_seq)
  else if sock.type = DanpSockType.typeDgram then
    match evs with
    | [] => none
    | SendEvent.allocFail :: _ => some (-1, sock.tx_seq)
    | SendEvent.attempt _ :: _ =>
      let pkt : DanpPacket :=
        ⟨danpPackHeader 0 sock.remote_node sock.local_node sock.remote_port
          sock.local_port DANP_FLAG_NONE, payload⟩
      let _txres := danp_route_tx table pkt
      some (Int.ofNat payload.length, sock.tx_seq)
  else danp_send_loop table sock payload evs 0

/-- Outcomes of the send retry loop: an acknowledged send returns the
length with tx_seq advanced by one modulo 256, any other exit returns -1
with tx_seq unchanged; with no ACK in the trace only the failure exit is
possible. -/
theorem danp_send_loop_spec (table : List (Nat × DanpInterface))
    (sock : DanpSocket) (payload : List Nat) :
    ∀ (evs : List SendEvent) (retries : Nat) (r : Int) (s2 : Nat),
      danp_send_loop table sock payload evs retries = some (r, s2) →
        ((r = Int.ofNat payload.length ∧ s2 = (sock.tx_seq + 1) % 256) ∨
          (r = -1 ∧ s2 = sock.tx_seq)) ∧
        (SendEvent.attempt true ∉ evs → r = -1 ∧ s2 = sock.tx_seq) := by
  intro evs
  induction evs with
  | nil =>
    intro retries r s2 h
    unfold danp_send_loop at h
    split at h
    · injection h with h2
      injection h2 with ha hb
      exact ⟨Or.inr ⟨ha.symm, hb.symm⟩, fun _ => ⟨ha.symm, hb.symm⟩⟩
    · exact absurd h (by simp)
  | cons e rest ih =>
    intro retries r s2 h
    unfold danp_send_loop at h
    split at h
    · injection h with h2
      injection h2 with ha hb
      exact ⟨Or.inr ⟨ha.symm, hb.symm⟩, fun _ => ⟨ha.symm, hb.symm⟩⟩
    · cases e with
      | allocFail =>
        have := ih retries r s2 h
        exact ⟨this.1, fun hni => this.2 (fun hm => hni (List.mem_cons_of_mem _ hm))⟩
      | attempt ack =>
        cases ack with
        | true =>
          simp only [if_pos rfl] at h
          injection h with h2
          injection h2 with ha hb
          refine ⟨Or.inl ⟨ha.symm, hb.symm⟩, fun hni => ?_⟩
          exact absurd (List.mem_cons_self _ _) hni
        | false =>
          simp only [Bool.false_eq_true, if_false] at h
          have := ih (retries + 1) r s2 h
          exact ⟨this.1, fun hni => this.2 (fun hm => hni (List.mem_cons_of_mem _ hm))⟩

/-- C3: for a stream socket and a payload of at most MAX_PACKET - 1 bytes,
if danp_send returns the length then tx_seq advanced by exactly one modulo
256, and if every counted attempt timed out without the ACK signal firing
then danp_send returns -1 and tx_seq is unchanged. -/
theorem danp_send_arq (table : List (Nat × DanpInterface))
    (sock : DanpSocket) (payload : List Nat) (evs : List SendEvent)
    (hty : sock.type = DanpSockType.typeStream)
    (hlen : payload.length ≤ DANP_MAX_PACKET_SIZE - 1) (r : Int) (s2 : Nat)
    (h : danp_send table sock payload evs = some (r, s2)) :
    (r = Int.ofNat payload.length → s2 = (sock.tx_seq + 1) % 256) ∧
    (SendEvent.attempt true ∉ evs → r = -1 ∧ s2 = sock.tx_seq) := by
  rw [danp_send.eq_def, if_neg (by omega),
    if_neg (by rw [hty]; intro hc; cases hc)] at h
  have hspec := danp_send_loop_spec table sock payload evs 0 r s2 h
  refine ⟨fun hr => ?_, hspec.2⟩
  rcases hspec.1 with ⟨-, h2⟩ | ⟨h1, -⟩
  · exact h2
  · rw [h1] at hr
    exact absurd hr.symm (by simp [Int.ofNat_eq_coe])

/-- A stream socket with tx_seq 7 used to instantiate the ARQ theorem. -/
def c3Sock : DanpSocket :=
  ⟨DanpSockState.sockEstablished, DanpSockType.typeStream, 9, 10, 2, 7, 7, 0,
    [], []⟩

/-- Concrete instance of the ARQ theorem: three timed-out attempts return
-1 and leave tx_seq at 7. -/
theorem danp_send_arq_witness :
    ((-1 : Int) = Int.ofNat 2 → (7 : Nat) = (7 + 1) % 256) ∧
    (SendEvent.attempt true ∉
        [SendEvent.attempt false, SendEvent.attempt false,
          SendEvent.attempt false] →
      (-1 : Int) = -1 ∧ (7 : Nat) = 7) :=
  danp_send_arq [] c3Sock [9, 9]
    [SendEvent.attempt false, SendEvent.attempt false, SendEvent.attempt false]
    (by decide) (by decide) (-1) 7 (by decide)

/-! ### Datagram send paths (src/src/danp_socket.c, danp_send_to and the
DGRAM branch of danp_send) -/

/-- Embedding of danp_send_to (src/src/danp_socket.c, lines 887-923):
rejects non-DGRAM sockets, oversize payloads and allocation failure, then
packs, routes and frees the packet and returns the payload length; the
danp_route_tx status is discarded. The second component is the transmit
log of the routing call. -/
def danp_send_to (table : List (Nat × DanpInterface)) (sock : DanpSocket)
    (payload : List Nat) (dst_node dst_port : Nat) (allocOk : Bool) :
    Int × List (List Char) :=
  if sock.type ≠ DanpSockType.typeDgram then (-1, [])
  else if DANP_MAX_PACKET_SIZE - 1 < payload.length then (-1, [])
  else if ¬allocOk then (-1, [])
  else
    let pkt : DanpPacket :=
      ⟨danpPackHeader 0 dst_node sock.local_node dst_port sock.local_port
        DANP_FLAG_NONE, payload⟩
    let txres := danp_route_tx table pkt
    (Int.ofNat payload.length, txres.2)

/-- C10: with a buffer available and a payload of at most MAX_PACKET - 1
bytes, danp_send_to and the DGRAM branch of danp_send return the payload
length for every routing table, including tables with no route to the
destination or an exceeded MTU: routing and transmit failures are never
reported to the datagram sender. -/
theorem danp_dgram_send_ignores_route (table : List (Nat × DanpInterface))
    (sock : DanpSocket) (payload : List Nat) (dst_node dst_port : Nat)
    (hty : sock.type = DanpSockType.typeDgram)
    (hlen : payload.length ≤ DANP_MAX_PACKET_SIZE - 1) :
    (danp_send_to table sock payload dst_node dst_port true).1 =
      Int.ofNat payload.length ∧
    (∀ (b : Bool) (evs : List SendEvent),
      danp_send table sock payload (SendEvent.attempt b :: evs) =
        some (Int.ofNat payload.length, sock.tx_seq)) := by
  constructor
  · rw [danp_send_to, if_neg (by rw [hty]; intro hc; exact hc rfl),
      if_neg (by omega), if_neg (by intro hc; exact hc rfl)]
  · intro b evs
    rw [danp_send, if_neg (by omega), if_pos hty]

/-- A datagram socket used to instantiate the datagram-send theorem. -/
def c10Sock : DanpSocket :=
  ⟨DanpSockState.sockOpen, DanpSockType.typeDgram, 20, 10, 0, 0, 0, 0,
    [], []⟩

/-- Concrete instance of the datagram-send theorem on an empty routing
table, where every route lookup fails. -/
theorem danp_dgram_send_ignores_route_witness :
    (danp_send_to [] c10Sock [1, 2, 3] 7 21 true).1 = Int.ofNat 3 ∧
    (∀ (b : Bool) (evs : List SendEvent),
      danp_send [] c10Sock [1, 2, 3] (SendEvent.attempt b :: evs) =
        some (Int.ofNat 3, c10Sock.tx_seq)) :=
  danp_dgram_send_ignores_route [] c10Sock [1, 2, 3] 7 21 (by decide)
    (by decide)

/-! ### Fragmentation sublayer (src/src/danp_zerocopy.c) -/

/-- Embedding of danp_sfp_pack_header (src/src/danp_zerocopy.c, lines
45-60): bits 5-0 carry the fragment id, bit 6 BEGIN, bit 7 MORE. -/
def danp_sfp_pack_header (is_begin has_more : Bool) (fragment_id : Nat) :
    Nat :=
  let h0 := fragment_id &&& 0x3F
  let h1 := if is_begin then h0 ||| DANP_SFP_FLAG_BEGIN else h0
  if has_more then h1 ||| DANP_SFP_FLAG_MORE else h1

/-- Fragment id extraction of danp_sfp_unpack_header (src/src/
danp_zerocopy.c, lines 69-85). -/
def danp_sfp_unpack_id (h : Nat) : Nat := h &&& 0x3F

/-- MORE-flag extraction of danp_sfp_unpack_header. -/
def danp_sfp_unpack_more (h : Nat) : Bool := h &&& DANP_SFP_FLAG_MORE != 0

set_option maxRecDepth 8192 in
/-- Unpacking the SFP header recovers the fragment id modulo 64 and the
MORE flag. -/
theorem sfp_header_fields : ∀ (b m : Bool), ∀ fid < 256,
    danp_sfp_unpack_id (danp_sfp_pack_header b m fid) = fid % 64 ∧
    danp_sfp_unpack_more (danp_sfp_pack_header b m fid) = m := by decide

/-- Fragment loop of danp_send_sfp (src/src/danp_zerocopy.c, lines
355-404): per fragment, one SFP header byte followed by up to 123 data
bytes; a routing failure aborts with -EIO; the second component lists the
transmitted fragment payloads. -/
def sfpSendLoop (table : List (Nat × DanpInterface)) (sock : DanpSocket) :
    List Nat → Nat → Nat → Int × List (List Nat)
  | [], _, sent => (Int.ofNat sent, [])
  | data@(_ :: _), fid, sent =>
    let chunk := data.take DANP_SFP_MAX_DATA_PER_FRAGMENT
    let hdr := danp_sfp_pack_header (fid = 0)
      (DANP_SFP_MAX_DATA_PER_FRAGMENT < data.length) fid
    let payload := hdr :: chunk
    let pkt : DanpPacket :=
      ⟨danpPackHeader 0 sock.remote_node sock.local_node sock.remote_port
        sock.local_port DANP_FLAG_NONE, payload⟩
    if (danp_route_tx table pkt).1 < 0 then (-5, [])
    else
      let rest := sfpSendLoop table sock
        (data.drop DANP_SFP_MAX_DATA_PER_FRAGMENT) ((fid + 1) % 256)
        (sent + chunk.length)
      (rest.1, payload :: rest.2)
termination_by data _ _ => data.length
decreasing_by
  simp_all [DANP_SFP_MAX_DATA_PER_FRAGMENT, DANP_MAX_PACKET_SIZE,
    DANP_HEADER_SIZE]
  omega

/-- Embedding of danp_send_sfp (src/src/danp_zerocopy.c, lines 313-416):
rejects empty data, DGRAM sockets (-EINVAL), non-established sockets and
messages above SFP_MAX_FRAGMENTS fragments, then sends the fragment
sequence. -/
def danp_send_sfp (table : List (Nat × DanpInterface)) (sock : DanpSocket)
    (data : List Nat) : Int × List (List Nat) :=
  if data.length = 0 then (-1, [])
  else if sock.type = DanpSockType.typeDgram then (-22, [])
  else if sock.state ≠ DanpSockState.sockEstablished then (-1, [])
  else
    let total := (data.length + DANP_SFP_MAX_DATA_PER_FRAGMENT - 1) /
      DANP_SFP_MAX_DATA_PER_FRAGMENT
    if DANP_SFP_MAX_FRAGMENTS < total then (-1, [])
    else sfpSendLoop table sock data 0 0

/-- Reassembly loop of danp_recv_sfp (src/src/danp_zerocopy.c, lines
446-499) over the fragment payloads delivered in order: a missing
fragment (timeout) or a fragment id different from the expected one frees
the partial chain and returns none; otherwise the SFP header byte is
stripped and the packet is appended to the chain until MORE is clear. -/
def sfpRecvLoop : List (List Nat) → Nat → List (List Nat) →
    Option (List (List Nat))
  | [], _, _ => none
  | f :: rest, eid, acc =>
    let hdr := f.headD 0
    let fid := danp_sfp_unpack_id hdr
    let more := danp_sfp_unpack_more hdr
    if fid ≠ eid then none
    else
      let acc2 := acc ++ [f.drop 1]
      if more then sfpRecvLoop rest ((eid + 1) % 256) acc2
      else some acc2

/-- Embedding of danp_recv_sfp (src/src/danp_zerocopy.c, lines 424-510):
DGRAM sockets are rejected; expected fragment ids start at 0. -/
def danp_recv_sfp (sock : DanpSocket) (frags : List (List Nat)) :
    Option (List (List Nat)) :=
  if sock.type = DanpSockType.typeDgram then none
  else sfpRecvLoop frags 0 []

/-- The 123-byte chunking of a data buffer. -/
def chunksOf123 : List Nat → List (List Nat)
  | [] => []
  | data@(_ :: _) =>
    data.take DANP_SFP_MAX_DATA_PER_FRAGMENT ::
      chunksOf123 (data.drop DANP_SFP_MAX_DATA_PER_FRAGMENT)
termination_by data => data.length
decreasing_by
  simp_all [DANP_SFP_MAX_DATA_PER_FRAGMENT, DANP_MAX_PACKET_SIZE,
    DANP_HEADER_SIZE]
  omega

/-- The fragment payloads produced by the send loop (SFP header byte
followed by the chunk). -/
def sfpChunks : List Nat → Nat → List (List Nat)
  | [], _ => []
  | data@(_ :: _), fid =>
    (danp_sfp_pack_header (fid = 0)
        (DANP_SFP_MAX_DATA_PER_FRAGMENT < data.length) fid ::
      data.take DANP_SFP_MAX_DATA_PER_FRAGMENT) ::
      sfpChunks (data.drop DANP_SFP_MAX_DATA_PER_FRAGMENT) ((fid + 1) % 256)
termination_by data _ => data.length
decreasing_by
  simp_all [DANP_SFP_MAX_DATA_PER_FRAGMENT, DANP_MAX_PACKET_SIZE,
    DANP_HEADER_SIZE]
  omega

/-- With a route to the peer whose MTU admits a full packet and whose tx
callback succeeds, the send loop transmits every chunk and returns the
total byte count. -/
theorem sfpSendLoop_ok (table : List (Nat × DanpInterface))
    (sock : DanpSocket) (ifc : DanpInterface)
    (hifc : danp_route_lookup table
        ((danpUnpackHeader (danpPackHeader 0 sock.remote_node sock.local_node
          sock.remote_port sock.local_port DANP_FLAG_NONE)).1) = some ifc)
    (hmtu : DANP_MAX_PACKET_SIZE ≤ ifc.mtu) (htx : 0 ≤ ifc.txRet) :
    ∀ (n : Nat) (data : List Nat), data.length ≤ n → ∀ (fid sent : Nat),
      sfpSendLoop table sock data fid sent =
        (Int.ofNat (sent + data.length), sfpChunks data fid) := by
  intro n
  induction n with
  | zero =>
    intro data hlen fid sent
    have hnil : data = [] := List.eq_nil_of_length_eq_zero (by omega)
    subst hnil
    simp [sfpSendLoop, sfpChunks]
  | succ n ih =>
    intro data hlen fid sent
    match data with
    | [] => simp [sfpSendLoop, sfpChunks]
    | d :: tail =>
      have hfit : ¬((danp_sfp_pack_header (fid = 0)
          (DANP_SFP_MAX_DATA_PER_FRAGMENT < (d :: tail).length) fid ::
            (d :: tail).take DANP_SFP_MAX_DATA_PER_FRAGMENT).length +
          DANP_HEADER_SIZE > ifc.mtu) := by
        have htake : ((d :: tail).take DANP_SFP_MAX_DATA_PER_FRAGMENT).length ≤
            DANP_SFP_MAX_DATA_PER_FRAGMENT := by
          simp [List.length_take]
        simp only [List.length_cons, DANP_SFP_MAX_DATA_PER_FRAGMENT,
          DANP_MAX_PACKET_SIZE, DANP_HEADER_SIZE] at htake hmtu ⊢
        omega
      have hroute : (danp_route_tx table
          ⟨danpPackHeader 0 sock.remote_node sock.local_node sock.remote_port
            sock.local_port DANP_FLAG_NONE,
           danp_sfp_pack_header (fid = 0)
              (DANP_SFP_MAX_DATA_PER_FRAGMENT < (d :: tail).length) fid ::
            (d :: tail).take DANP_SFP_MAX_DATA_PER_FRAGMENT⟩).1 =
          ifc.txRet := by
        simp only [danp_route_tx, hifc]
        rw [if_neg hfit]
      unfold sfpSendLoop
      dsimp only
      rw [hroute]
      rw [if_neg (show ¬(ifc.txRet < 0) from by omega)]
      rw [ih ((d :: tail).drop DANP_SFP_MAX_DATA_PER_FRAGMENT)
        (by
          simp only [List.length_drop, List.length_cons,
            DANP_SFP_MAX_DATA_PER_FRAGMENT, DANP_MAX_PACKET_SIZE,
            DANP_HEADER_SIZE]
          simp only [List.length_cons] at hlen
          omega) ((fid + 1) % 256)
        (sent + ((d :: tail).take DANP_SFP_MAX_DATA_PER_FRAGMENT).length)]
      rw [sfpChunks]
      simp only [Prod.mk.injEq]
      constructor
      · congr 1
        have h1 : ((d :: tail).take DANP_SFP_MAX_DATA_PER_FRAGMENT).length =
            min DANP_SFP_MAX_DATA_PER_FRAGMENT (d :: tail).length := by
          simp [List.length_take]
        have h2 : ((d :: tail).drop DANP_SFP_MAX_DATA_PER_FRAGMENT).length =
            (d :: tail).length - DANP_SFP_MAX_DATA_PER_FRAGMENT := by
          simp [List.length_drop]
        omega
      · exact trivial

/-- Concatenating the 123-byte chunks restores the data. -/
theorem chunksOf123_join :
    ∀ (n : Nat) (data : List Nat), data.length ≤ n →
      (chunksOf123 data).flatten = data := by
  intro n
  induction n with
  | zero =>
    intro data h
    have hnil : data = [] := List.eq_nil_of_length_eq_zero (by omega)
    subst hnil
    simp [chunksOf123]
  | succ n ih =>
    intro data h
    match data with
    | [] => simp [chunksOf123]
    | d :: tail =>
      rw [chunksOf123]
      simp only [List.flatten_cons]
      rw [ih ((d :: tail).drop DANP_SFP_MAX_DATA_PER_FRAGMENT)
        (by
          simp only [List.length_drop, List.length_cons,
            DANP_SFP_MAX_DATA_PER_FRAGMENT, DANP_MAX_PACKET_SIZE,
            DANP_HEADER_SIZE]
          simp only [List.length_cons] at h
          omega)]
      exact List.take_append_drop _ _

/-- With at most 64 fragments the reassembly loop accepts the chunk
sequence and returns the chain of stripped chunks. -/
theorem sfpRecvLoop_ok :
    ∀ (n : Nat) (data : List Nat), data.length ≤ n → data ≠ [] →
      ∀ (fid : Nat) (acc : List (List Nat)),
        fid + ((data.length + DANP_SFP_MAX_DATA_PER_FRAGMENT - 1) /
            DANP_SFP_MAX_DATA_PER_FRAGMENT) ≤ 64 →
        sfpRecvLoop (sfpChunks data fid) fid acc =
          some (acc ++ chunksOf123 data) := by
  intro n
  induction n with
  | zero =>
    intro data hlen hne
    exact absurd (List.eq_nil_of_length_eq_zero (by omega)) hne
  | succ n ih =>
    intro data hlen hne fid acc hcnt
    match data, hne with
    | d :: tail, _ =>
      simp only [List.length_cons, DANP_SFP_MAX_DATA_PER_FRAGMENT,
        DANP_MAX_PACKET_SIZE, DANP_HEADER_SIZE] at hcnt
      have hfrag1 : 1 ≤ (tail.length + 1 + 123 - 1) / 123 := by omega
      have hfid63 : fid ≤ 63 := by omega
      rw [sfpChunks]
      unfold sfpRecvLoop
      dsimp only
      obtain ⟨hid, hmore⟩ := sfp_header_fields (decide (fid = 0))
        (decide (DANP_SFP_MAX_DATA_PER_FRAGMENT < (d :: tail).length)) fid
        (by omega)
      simp only [List.headD_cons]
      simp only [hid, hmore, Nat.mod_eq_of_lt (show fid < 64 by omega),
        decide_eq_true_eq]
      rw [if_neg (show ¬fid ≠ fid by simp)]
      simp only [List.drop_one, List.tail_cons]
      by_cases hm : DANP_SFP_MAX_DATA_PER_FRAGMENT < (d :: tail).length
      · rw [if_pos hm]
        simp only [List.length_cons, DANP_SFP_MAX_DATA_PER_FRAGMENT,
          DANP_MAX_PACKET_SIZE, DANP_HEADER_SIZE] at hm
        have hrec := ih ((d :: tail).drop DANP_SFP_MAX_DATA_PER_FRAGMENT)
          (by
            simp only [List.length_drop, List.length_cons,
              DANP_SFP_MAX_DATA_PER_FRAGMENT, DANP_MAX_PACKET_SIZE,
              DANP_HEADER_SIZE]
            simp only [List.length_cons] at hlen
            omega)
          (by
            intro hc
            have := congrArg List.length hc
            simp only [List.length_drop, List.length_cons,
              DANP_SFP_MAX_DATA_PER_FRAGMENT, DANP_MAX_PACKET_SIZE,
              DANP_HEADER_SIZE, List.length_nil] at this
            omega)
          (fid + 1) (acc ++ [(d :: tail).take DANP_SFP_MAX_DATA_PER_FRAGMENT])
          (by
            simp only [List.length_drop, List.length_cons,
              DANP_SFP_MAX_DATA_PER_FRAGMENT, DANP_MAX_PACKET_SIZE,
              DANP_HEADER_SIZE]
            omega)
        rw [show (fid + 1) % 256 = fid + 1 from Nat.mod_eq_of_lt (by omega)]
        rw [hrec, chunksOf123]
        simp
      · rw [if_neg hm]
        rw [chunksOf123]
        have hdrop : (d :: tail).drop DANP_SFP_MAX_DATA_PER_FRAGMENT = [] := by
          apply List.drop_eq_nil_of_le
          simp only [List.length_cons, DANP_SFP_MAX_DATA_PER_FRAGMENT,
            DANP_MAX_PACKET_SIZE, DANP_HEADER_SIZE] at hm ⊢
          omega
        rw [hdrop]
        rw [show chunksOf123 [] = [] from by rw [chunksOf123]]

/-- When the message needs more than 64 fragments the reassembly loop
fails: at real fragment index 64 the 6-bit id wraps to 0 while the
expected id is 64. -/
theorem sfpRecvLoop_overflow :
    ∀ (n : Nat) (data : List Nat), data.length ≤ n → data ≠ [] →
      ∀ (fid : Nat) (acc : List (List Nat)), fid ≤ 64 →
        65 ≤ fid + ((data.length + DANP_SFP_MAX_DATA_PER_FRAGMENT - 1) /
            DANP_SFP_MAX_DATA_PER_FRAGMENT) →
        sfpRecvLoop (sfpChunks data fid) fid acc = none := by
  intro n
  induction n with
  | zero =>
    intro data hlen hne
    exact absurd (List.eq_nil_of_length_eq_zero (by omega)) hne
  | succ n ih =>
    intro data hlen hne fid acc hfid hcnt
    match data, hne with
    | d :: tail, _ =>
      simp only [List.length_cons, DANP_SFP_MAX_DATA_PER_FRAGMENT,
        DANP_MAX_PACKET_SIZE, DANP_HEADER_SIZE] at hcnt
      rw [sfpChunks]
      unfold sfpRecvLoop
      dsimp only
      obtain ⟨hid, hmore⟩ := sfp_header_fields (decide (fid = 0))
        (decide (DANP_SFP_MAX_DATA_PER_FRAGMENT < (d :: tail).length)) fid
        (by omega)
      simp only [List.headD_cons]
      simp only [hid, hmore, decide_eq_true_eq]
      by_cases h64 : fid = 64
      · rw [if_pos (by rw [h64]; simp)]
      · have hfid63 : fid ≤ 63 := by omega
        rw [Nat.mod_eq_of_lt (show fid < 64 by omega)]
        rw [if_neg (show ¬fid ≠ fid by simp)]
        have hm : DANP_SFP_MAX_DATA_PER_FRAGMENT < (d :: tail).length := by
          simp only [List.length_cons, DANP_SFP_MAX_DATA_PER_FRAGMENT,
            DANP_MAX_PACKET_SIZE, DANP_HEADER_SIZE]
          omega
        rw [if_pos hm]
        simp only [List.drop_one, List.tail_cons]
        rw [show (fid + 1) % 256 = fid + 1 from Nat.mod_eq_of_lt (by omega)]
        apply ih
        · simp only [List.length_drop, List.length_cons,
            DANP_SFP_MAX_DATA_PER_FRAGMENT, DANP_MAX_PACKET_SIZE,
            DANP_HEADER_SIZE]
          simp only [List.length_cons] at hlen
          omega
        · intro hc
          have := congrArg List.length hc
          simp only [List.length_drop, List.length_cons,
            DANP_SFP_MAX_DATA_PER_FRAGMENT, DANP_MAX_PACKET_SIZE,
            DANP_HEADER_SIZE, List.length_nil] at this
          simp only [List.length_cons] at hm
          omega
        · omega
        · simp only [List.length_drop, List.length_cons,
            DANP_SFP_MAX_DATA_PER_FRAGMENT, DANP_MAX_PACKET_SIZE,
            DANP_HEADER_SIZE]
          simp only [List.length_cons] at hm
          omega

/-- An established stream socket to peer node 3 used by the SFP claims. -/
def c4Sock : DanpSocket :=
  ⟨DanpSockState.sockEstablished, DanpSockType.typeStream, 11, 10, 3, 9, 0, 0,
    [], []⟩

/-- An interface with room for a full packet routing node 3. -/
def c4Iface : DanpInterface := ⟨['l', 'o'], 3, 256, 0⟩

/-- C4 (amended): for 1 ≤ L ≤ 64 × 123 bytes sent on an established stream
socket over a working route, send_sfp returns L and recv_sfp reassembles a
chain whose stripped payloads concatenate to exactly the input; above 64
fragments the 6-bit fragment id wraps and reassembly fails, so the bound
is 64 fragments, not SFP_MAX_FRAGMENTS (255). -/
theorem danp_sfp_roundtrip (table : List (Nat × DanpInterface))
    (sock : DanpSocket) (data : List Nat) (ifc : DanpInterface)
    (hty : sock.type = DanpSockType.typeStream)
    (hst : sock.state = DanpSockState.sockEstablished)
    (h1 : 1 ≤ data.length)
    (h2 : data.length ≤ 64 * DANP_SFP_MAX_DATA_PER_FRAGMENT)
    (hifc : danp_route_lookup table
        ((danpUnpackHeader (danpPackHeader 0 sock.remote_node sock.local_node
          sock.remote_port sock.local_port DANP_FLAG_NONE)).1) = some ifc)
    (hmtu : DANP_MAX_PACKET_SIZE ≤ ifc.mtu) (htx : 0 ≤ ifc.txRet) :
    (danp_send_sfp table sock data).1 = Int.ofNat data.length ∧
    danp_recv_sfp sock (danp_send_sfp table sock data).2 =
      some (chunksOf123 data) ∧
    (chunksOf123 data).flatten = data := by
  have hsend : danp_send_sfp table sock data =
      (Int.ofNat data.length, sfpChunks data 0) := by
    simp only [danp_send_sfp]
    rw [if_neg (show ¬data.length = 0 by omega)]
    rw [if_neg (show ¬sock.type = DanpSockType.typeDgram by
      rw [hty]; intro hc; cases hc)]
    rw [if_neg (show ¬sock.state ≠ DanpSockState.sockEstablished by
      rw [hst]; simp)]
    rw [if_neg (by
      simp only [DANP_SFP_MAX_FRAGMENTS, DANP_SFP_MAX_DATA_PER_FRAGMENT,
        DANP_MAX_PACKET_SIZE, DANP_HEADER_SIZE] at h2 ⊢
      omega)]
    rw [sfpSendLoop_ok table sock ifc hifc hmtu htx data.length data le_rfl
      0 0, Nat.zero_add]
  refine ⟨by rw [hsend], ?_, chunksOf123_join data.length data le_rfl⟩
  rw [hsend]
  rw [danp_recv_sfp]
  rw [if_neg (show ¬sock.type = DanpSockType.typeDgram by
    rw [hty]; intro hc; cases hc)]
  have hne : data ≠ [] := by
    intro hc
    rw [hc] at h1
    simp at h1
  have := sfpRecvLoop_ok data.length data le_rfl hne 0 []
    (by
      simp only [DANP_SFP_MAX_DATA_PER_FRAGMENT, DANP_MAX_PACKET_SIZE,
        DANP_HEADER_SIZE] at h2 ⊢
      omega)
  rw [this]
  simp

/-- Concrete instance of the SFP round-trip on a two-byte message. -/
theorem danp_sfp_roundtrip_witness :
    (danp_send_sfp [(3, c4Iface)] c4Sock [5, 6]).1 =
      Int.ofNat (List.length [5, 6]) ∧
    danp_recv_sfp c4Sock (danp_send_sfp [(3, c4Iface)] c4Sock [5, 6]).2 =
      some (chunksOf123 [5, 6]) ∧
    (chunksOf123 [5, 6]).flatten = [5, 6] :=
  danp_sfp_roundtrip [(3, c4Iface)] c4Sock [5, 6] c4Iface (by decide)
    (by decide) (by decide) (by decide) (by decide) (by decide) (by decide)

/-- A 7873-byte message: 65 fragments of up to 123 bytes. -/
def c4Data : List Nat := List.replicate 7873 0

/-- C4 is false as stated: 7873 bytes is within SFP_MAX_FRAGMENTS × 123 =
31365 and send_sfp returns 7873, yet recv_sfp returns none, because the
65th fragment carries wrapped id 0 while the receiver expects 64. -/
theorem danp_sfp_overflow_counterexample :
    c4Data.length ≤ DANP_SFP_MAX_FRAGMENTS * DANP_SFP_MAX_DATA_PER_FRAGMENT ∧
    (danp_send_sfp [(3, c4Iface)] c4Sock c4Data).1 =
      Int.ofNat c4Data.length ∧
    danp_recv_sfp c4Sock (danp_send_sfp [(3, c4Iface)] c4Sock c4Data).2 =
      none := by
  have hlen : c4Data.length = 7873 := by
    rw [show c4Data = List.replicate 7873 0 from rfl, List.length_replicate]
  have hifc : danp_route_lookup [(3, c4Iface)]
      ((danpUnpackHeader (danpPackHeader 0 c4Sock.remote_node
        c4Sock.local_node c4Sock.remote_port c4Sock.local_port
        DANP_FLAG_NONE)).1) = some c4Iface := by decide
  have hsend : danp_send_sfp [(3, c4Iface)] c4Sock c4Data =
      (Int.ofNat c4Data.length, sfpChunks c4Data 0) := by
    simp only [danp_send_sfp]
    rw [if_neg (show ¬c4Data.length = 0 by rw [hlen]; omega)]
    rw [if_neg (show ¬c4Sock.type = DanpSockType.typeDgram by decide)]
    rw [if_neg (show ¬c4Sock.state ≠ DanpSockState.sockEstablished by decide)]
    rw [if_neg (by
      simp only [hlen, DANP_SFP_MAX_FRAGMENTS, DANP_SFP_MAX_DATA_PER_FRAGMENT,
        DANP_MAX_PACKET_SIZE, DANP_HEADER_SIZE]
      omega)]
    rw [sfpSendLoop_ok [(3, c4Iface)] c4Sock c4Iface hifc (by decide)
      (by decide) c4Data.length c4Data le_rfl 0 0, Nat.zero_add]
  refine ⟨by rw [hlen]; decide, by rw [hsend], ?_⟩
  rw [hsend]
  rw [danp_recv_sfp]
  rw [if_neg (show ¬c4Sock.type = DanpSockType.typeDgram by decide)]
  apply sfpRecvLoop_overflow c4Data.length c4Data le_rfl
  · intro hc
    have hc2 := congrArg List.length hc
    rw [hlen] at hc2
    simp at hc2
  · omega
  · rw [hlen]
    simp only [DANP_SFP_MAX_DATA_PER_FRAGMENT, DANP_MAX_PACKET_SIZE,
      DANP_HEADER_SIZE]
    omega

/-! ### Socket table state machine (src/src/danp_socket.c) -/

/-- A closed socket slot as left by danp_socket_init. -/
def emptySock : DanpSocket :=
  ⟨DanpSockState.sockClosed, DanpSockType.typeDgram, 0, 0, 0, 0, 0, 0, [], []⟩

/-- The socket table: the slot pool, the intrusive active list materialised
as slot indices (head = most recently linked), the next ephemeral port and
the configured local node. -/
structure SockTable where
  slots : List DanpSocket
  active : List Nat
  next_ephemeral_port : Nat
  local_node_cfg : Nat
deriving DecidableEq

/-- Embedding of danp_socket_init (src/src/danp_socket.c, lines 160-185):
all slots closed, empty active list, next ephemeral port 1. -/
def sockTableInit (node : Nat) : SockTable :=
  ⟨List.replicate DANP_MAX_SOCKET_COUNT emptySock, [], 1, node⟩

/-- The socket stored in a slot. -/
def slotAt (t : SockTable) (i : Nat) : DanpSocket := t.slots.getD i emptySock

/-- Replace the socket stored in a slot. -/
def setSlot (t : SockTable) (i : Nat) (s : DanpSocket) : SockTable :=
  { t with slots := t.slots.set i s }

/-- Traversal loop of danp_port_in_use (src/src/danp_socket.c, lines
43-64) over the active list with its 20-iteration guard. -/
def danp_port_in_use_go (t : SockTable) : List Nat → Nat → Nat → Bool
  | [], _, _ => false
  | i :: rest, g, port =>
    if DANP_MAX_SOCKET_COUNT ≤ g then false
    else if (slotAt t i).state ≠ DanpSockState.sockClosed ∧
        (slotAt t i).local_port = port then true
    else danp_port_in_use_go t rest (g + 1) port

/-- Embedding of danp_port_in_use (src/src/danp_socket.c, lines 43-64). -/
def danp_port_in_use (t : SockTable) (port : Nat) : Bool :=
  danp_port_in_use_go t t.active 0 port

/-- Index-returning form of the danp_find_socket traversal, over the
table's active list (the C function returns the socket pointer; the index
identifies the slot to mutate). -/
def danp_find_socket_idx_go (t : SockTable) :
    List Nat → Nat → Nat → Nat → Nat → Option Nat
  | [], _, _, _, _ => none
  | i :: rest, g, lp, rn, rp =>
    if DANP_MAX_SOCKET_COUNT ≤ g then none
    else if (slotAt t i).local_port = lp then
      if (slotAt t i).remote_node = rn ∧ (slotAt t i).remote_port = rp ∧
          ((slotAt t i).state = DanpSockState.sockEstablished ∨
           (slotAt t i).state = DanpSockState.sockSynSent ∨
           (slotAt t i).state = DanpSockState.sockSynReceived) then some i
      else if (slotAt t i).state = DanpSockState.sockListening ∨
          ((slotAt t i).type = DanpSockType.typeDgram ∧
           (slotAt t i).state = DanpSockState.sockOpen) then some i
      else danp_find_socket_idx_go t rest (g + 1) lp rn rp
    else danp_find_socket_idx_go t rest (g + 1) lp rn rp

/-- Slot-index form of danp_find_socket over the socket table. -/
def danp_find_socket_idx (t : SockTable) (lp rn rp : Nat) : Option Nat :=
  danp_find_socket_idx_go t t.active 0 lp rn rp

/-- First-free-slot scan of danp_socket (src/src/danp_socket.c, lines
214-221): first slot with state CLOSED and local_port 0. -/
def findFreeSlot : List DanpSocket → Nat → Option Nat
  | [], _ => none
  | s :: rest, i =>
    if s.state = DanpSockState.sockClosed ∧ s.local_port = 0 then some i
    else findFreeSlot rest (i + 1)

/-- Embedding of danp_socket (src/src/danp_socket.c, lines 192-307): claims
the first free slot, resets its fields (queues are reused but drained, so
they restart empty), marks it OPEN with the configured local node, unlinks
it from the active list if a stale link remains and pushes it at the head. -/
def danp_socket_alloc (t : SockTable) (ty : DanpSockType) :
    SockTable × Option Nat :=
  match findFreeSlot t.slots 0 with
  | none => (t, none)
  | some i =>
    let fresh : DanpSocket :=
      ⟨DanpSockState.sockOpen, ty, 0, t.local_node_cfg, 0, 0, 0, 0, [], []⟩
    let t1 := setSlot t i fresh
    ({ t1 with active := i :: t1.active.erase i }, some i)

/-- Port wrap of the ephemeral scan: reaching MAX_PORTS restarts at 1. -/
def wrapPort (q : Nat) : Nat := if DANP_MAX_PORTS ≤ q then 1 else q

/-- The do-while ephemeral scan of danp_bind (src/src/danp_socket.c, lines
332-361): tries ports from next_ephemeral_port, wrapping inside
[1, MAX_PORTS), until a free one is found or the scan returns to its start;
returns the chosen port and the updated next_ephemeral_port. -/
def ephemeralScanGo (t : SockTable) (start : Nat) :
    Nat → Nat → Option (Nat × Nat)
  | 0, _ => none
  | Nat.succ fuel, cur =>
    if danp_port_in_use t cur then
      if wrapPort (cur + 1) = start then none
      else ephemeralScanGo t start fuel (wrapPort (cur + 1))
    else some (cur, wrapPort (cur + 1))

/-- Full ephemeral scan starting at the table's next ephemeral port. -/
def ephemeralScan (t : SockTable) : Option (Nat × Nat) :=
  ephemeralScanGo t t.next_ephemeral_port DANP_MAX_PORTS
    t.next_ephemeral_port

/-- Range and port-in-use checks of danp_bind (src/src/danp_socket.c,
lines 363-377), followed by the assignment of the port to the slot. -/
def bindChecked (t : SockTable) (si q : Nat) : SockTable × Int :=
  if DANP_MAX_PORTS ≤ q then (t, -1)
  else if danp_port_in_use t q then (t, -1)
  else (setSlot t si { slotAt t si with local_port := q }, 0)

/-- Embedding of danp_bind (src/src/danp_socket.c, lines 315-388): port 0
requests an ephemeral port; any chosen or requested port must be in range
and not in use. -/
def danp_bind (t : SockTable) (si : Nat) (port : Nat) : SockTable × Int :=
  if port = 0 then
    match ephemeralScan t with
    | none => (t, -1)
    | some (q, nep2) => bindChecked { t with next_ephemeral_port := nep2 } si q
  else bindChecked t si port

/-- Embedding of danp_listen (src/src/danp_socket.c, lines 396-401): sets
the state to LISTENING without any checks. -/
def danp_listen (t : SockTable) (si : Nat) : SockTable :=
  setSlot t si { slotAt t si with state := DanpSockState.sockListening }

/-- Embedding of danp_send_control (src/src/danp_socket.c, lines 119-154):
the emitted control frame; a stream ACK carries the acknowledged sequence
number as its single payload byte. The routing outcome is ignored. -/
def danp_send_control (sock : DanpSocket) (flags : Nat) (seq : Nat) :
    DanpPacket :=
  ⟨danpPackHeader 0 sock.remote_node sock.local_node sock.remote_port
    sock.local_port flags,
   if flags &&& DANP_FLAG_ACK ≠ 0 ∧ sock.type = DanpSockType.typeStream
   then [seq] else []⟩

/-- Bounded message-queue send with timeout 0: dropped when full. -/
def queueSend {α : Type} (q : List α) (x : α) (cap : Nat) : List α :=
  if q.length < cap then q ++ [x] else q

/-- Embedding of danp_close (src/src/danp_socket.c, lines 408-462): a
stream socket in a connected or half-open state emits an RST; the slot is
unlinked from the active list, closed and its port cleared (queues are
retained for reuse). -/
def danp_close (t : SockTable) (si : Nat) : SockTable × List DanpPacket :=
  let sock := slotAt t si
  let tx :=
    if sock.type = DanpSockType.typeStream ∧
        (sock.state = DanpSockState.sockEstablished ∨
         sock.state = DanpSockState.sockSynSent ∨
         sock.state = DanpSockState.sockSynReceived)
    then [danp_send_control sock DANP_FLAG_RST 0] else []
  let t1 := { t with active := t.active.erase si }
  (setSlot t1 si
    { sock with state := DanpSockState.sockClosed, local_port := 0 }, tx)

/-- Embedding of danp_socket_input_handler (src/src/danp_socket.c, lines
679-876): header unpacking, socket lookup, RST handling, peer resync,
listener child spawning, handshake completion, data-ACK handling and
in-order data delivery. The second component lists the control frames
emitted while handling the packet. -/
def danp_socket_input_handler (t : SockTable) (pkt : DanpPacket) :
    SockTable × List DanpPacket :=
  let u := danpUnpackHeader pkt.header_raw
  let src := u.2.1
  let dst_port := u.2.2.1
  let src_port := u.2.2.2.1
  let flags := u.2.2.2.2
  let msock := danp_find_socket_idx t dst_port src src_port
  if flags = DANP_FLAG_RST then
    match msock with
    | some si =>
      let sock := slotAt t si
      if sock.type = DanpSockType.typeStream then
        (setSlot t si
          { sock with state := DanpSockState.sockClosed, local_port := 0,
                      rx_queue := queueSend sock.rx_queue none 10 }, [])
      else (t, [])
    | none => (t, [])
  else
    match msock with
    | none => (t, [])
    | some si =>
      let sock := slotAt t si
      if (sock.state = DanpSockState.sockEstablished ∨
          sock.state = DanpSockState.sockSynReceived) ∧
          flags &&& DANP_FLAG_SYN ≠ 0 then
        let sock1 :=
          if sock.type = DanpSockType.typeStream then
            { sock with tx_seq := 0, rx_expected_seq := 0, rx_queue := [] }
          else sock
        (setSlot t si { sock1 with state := DanpSockState.sockSynReceived },
          [danp_send_control sock1 (DANP_FLAG_ACK ||| DANP_FLAG_SYN) 0])
      else if sock.state = DanpSockState.sockListening ∧
          flags &&& DANP_FLAG_SYN ≠ 0 then
        match danp_socket_alloc t sock.type with
        | (t1, none) => (t1, [])
        | (t1, some ci) =>
          let child := { slotAt t1 ci with
            local_node := t.local_node_cfg, local_port := dst_port,
            remote_node := src, remote_port := src_port,
            state := DanpSockState.sockSynReceived }
          let t2 := setSlot t1 ci child
          let parent := slotAt t2 si
          if parent.accept_queue.length < 5 then
            (setSlot t2 si
              { parent with accept_queue := parent.accept_queue ++ [ci] },
              [danp_send_control child (DANP_FLAG_ACK ||| DANP_FLAG_SYN) 0])
          else
            (setSlot t2 ci
              { child with state := DanpSockState.sockClosed,
                           local_port := 0 }, [])
      else if sock.state = DanpSockState.sockSynSent ∧
          flags &&& DANP_FLAG_ACK ≠ 0 then
        (setSlot t si { sock with state := DanpSockState.sockEstablished },
          [danp_send_control sock DANP_FLAG_ACK 0])
      else if sock.state = DanpSockState.sockSynReceived ∧
          flags &&& DANP_FLAG_ACK ≠ 0 ∧ flags &&& DANP_FLAG_SYN = 0 then
        (setSlot t si { sock with state := DanpSockState.sockEstablished }, [])
      else if flags &&& DANP_FLAG_ACK ≠ 0 ∧ flags &&& DANP_FLAG_SYN = 0 ∧
          pkt.payload.length = 1 then
        (t, [])
      else if (sock.state = DanpSockState.sockEstablished ∨
          sock.state = DanpSockState.sockSynReceived ∨
          (sock.type = DanpSockType.typeDgram ∧
           sock.state = DanpSockState.sockOpen)) ∧ 0 < pkt.payload.length then
        if sock.type = DanpSockType.typeDgram then
          (setSlot t si
            { sock with rx_queue := queueSend sock.rx_queue (some pkt) 10 },
            [])
        else
          let sock1 :=
            if sock.state = DanpSockState.sockSynReceived then
              { sock with state := DanpSockState.sockEstablished }
            else sock
          let seq := pkt.payload.headD 0
          if seq = sock1.rx_expected_seq then
            (setSlot t si { sock1 with
              rx_expected_seq := (sock1.rx_expected_seq + 1) % 256,
              rx_queue := queueSend sock1.rx_queue (some pkt) 10 },
              [danp_send_control sock1 DANP_FLAG_ACK seq])
          else
            (setSlot t si sock1, [danp_send_control sock1 DANP_FLAG_ACK seq])
      else (t, [])

/-! ### C2: port exclusivity -/

/-- The incoming SYN of the C2 scenario: node 22 port 7 connecting to our
node 10 on port 5. -/
def c2Packet : DanpPacket :=
  ⟨danpPackHeader 0 10 22 5 7 DANP_FLAG_SYN, []⟩

/-- The C2 scenario: socket() + bind(5) + listen() on node 10, then the
incoming SYN is dispatched. -/
def c2Table : SockTable :=
  (danp_socket_input_handler
    (danp_listen
      (danp_bind (danp_socket_alloc (sockTableInit 10)
        DanpSockType.typeStream).1 0 5).1 0)
    c2Packet).1

/-- Counterexample to C2 at a concrete input: after socket/bind(5)/listen
and one incoming SYN, the listener (slot 0, LISTENING) and the spawned
child (slot 1, SYN_RECEIVED) are both non-CLOSED and both hold local
port 5, so two non-CLOSED sockets share a local port. -/
theorem danp_port_exclusivity_counterexample :
    (slotAt c2Table 0).state = DanpSockState.sockListening ∧
    (slotAt c2Table 1).state = DanpSockState.sockSynReceived ∧
    (slotAt c2Table 0).state ≠ DanpSockState.sockClosed ∧
    (slotAt c2Table 1).state ≠ DanpSockState.sockClosed ∧
    (slotAt c2Table 0).local_port = 5 ∧
    (slotAt c2Table 1).local_port = 5 := by decide

/-- getD after set at a different index is unchanged. -/
theorem getD_set_ne (l : List DanpSocket) (i j : Nat) (s d : DanpSocket)
    (h : i ≠ j) : (l.set i s).getD j d = l.getD j d := by
  simp [List.getD, List.getElem?_set_ne h]

/-- getD after set at the same in-range index returns the new element. -/
theorem getD_set_self (l : List DanpSocket) (i : Nat) (s d : DanpSocket)
    (h : i < l.length) : (l.set i s).getD i d = s := by
  simp [List.getD, List.getElem?_set_self, h]

/-- next_ephemeral_port does not influence the port-in-use scan. -/
theorem port_in_use_go_nep (t : SockTable) (n : Nat) :
    ∀ (l : List Nat) (g q : Nat),
      danp_port_in_use_go { t with next_ephemeral_port := n } l g q =
        danp_port_in_use_go t l g q := by
  intro l
  induction l with
  | nil => intro g q; rfl
  | cons i rest ih =>
    intro g q
    unfold danp_port_in_use_go
    rw [ih]
    rfl

/-- next_ephemeral_port does not influence danp_port_in_use. -/
theorem port_in_use_nep (t : SockTable) (n q : Nat) :
    danp_port_in_use { t with next_ephemeral_port := n } q =
      danp_port_in_use t q :=
  port_in_use_go_nep t n t.active 0 q

/-- A successful bindChecked certifies that the chosen port is in range and
not in use, and records exactly the port assignment. -/
theorem bindChecked_ok (t : SockTable) (si q : Nat)
    (h : (bindChecked t si q).2 = 0) :
    danp_port_in_use t q = false ∧ q < DANP_MAX_PORTS ∧
      bindChecked t si q =
        (setSlot t si { slotAt t si with local_port := q }, 0) := by
  unfold bindChecked at h ⊢
  split at h
  · simp at h
  · next hrange =>
    split at h
    · simp at h
    · next huse =>
      refine ⟨by simpa using huse, ?_, ?_⟩
      · simp only [DANP_MAX_PORTS] at hrange ⊢; omega
      · rw [if_neg hrange, if_neg huse]

/-- The slot index returned by the find traversal holds the searched local
port. -/
theorem find_idx_go_port (t : SockTable) :
    ∀ (l : List Nat) (g lp rn rp i : Nat),
      danp_find_socket_idx_go t l g lp rn rp = some i →
        (slotAt t i).local_port = lp := by
  intro l
  induction l with
  | nil =>
    intro g lp rn rp i h
    exact absurd h (by simp [danp_find_socket_idx_go])
  | cons j rest ih =>
    intro g lp rn rp i h
    unfold danp_find_socket_idx_go at h
    split at h
    · exact absurd h (by simp)
    · split at h
      · next hport =>
        split at h
        · injection h with h; subst h; exact hport
        · split at h
          · injection h with h; subst h; exact hport
          · exact ih _ _ _ _ _ h
      · exact ih _ _ _ _ _ h

/-- The slot index returned by danp_find_socket_idx holds the searched
local port. -/
theorem find_idx_port (t : SockTable) (lp rn rp i : Nat)
    (h : danp_find_socket_idx t lp rn rp = some i) :
    (slotAt t i).local_port = lp :=
  find_idx_go_port t t.active 0 lp rn rp i h

/-- The free-slot scan returns an in-range index whose slot is CLOSED with
port 0. -/
theorem findFreeSlot_spec :
    ∀ (l : List DanpSocket) (i j : Nat), findFreeSlot l i = some j →
      i ≤ j ∧ j - i < l.length ∧
        (l.getD (j - i) emptySock).state = DanpSockState.sockClosed ∧
        (l.getD (j - i) emptySock).local_port = 0 := by
  intro l
  induction l with
  | nil => intro i j h; exact absurd h (by simp [findFreeSlot])
  | cons s rest ih =>
    intro i j h
    unfold findFreeSlot at h
    split at h
    · next hc =>
      injection h with h
      subst h
      simpa using hc
    · obtain ⟨h1, h2, h3, h4⟩ := ih (i + 1) j h
      have hji : j - i = (j - (i + 1)) + 1 := by omega
      refine ⟨by omega, by simp [hji]; omega, ?_, ?_⟩
      · rw [hji, List.getD_cons_succ]; exact h3
      · rw [hji, List.getD_cons_succ]; exact h4

/-- A successful danp_bind assigns some port that was free beforehand and
in range; a nonzero requested port is bound as requested. -/
theorem danp_bind_ok (t : SockTable) (si p : Nat)
    (hbind : (danp_bind t si p).2 = 0) :
    ∃ q, danp_port_in_use t q = false ∧ q < DANP_MAX_PORTS ∧
      (danp_bind t si p).1.slots =
        t.slots.set si { slotAt t si with local_port := q } ∧
      (p ≠ 0 → q = p) := by
  unfold danp_bind at hbind ⊢
  by_cases hp : p = 0
  · subst hp
    rw [if_pos rfl] at hbind ⊢
    cases hscan : ephemeralScan t with
    | none => rw [hscan] at hbind; simp at hbind
    | some qn =>
      obtain ⟨q, nep2⟩ := qn
      rw [hscan] at hbind
      dsimp only at hbind ⊢
      obtain ⟨huse, hlt, heq⟩ := bindChecked_ok _ si q hbind
      refine ⟨q, ?_, hlt, ?_, fun h0 => absurd rfl h0⟩
      · rw [← port_in_use_nep t nep2]; exact huse
      · rw [heq]; rfl
  · rw [if_neg hp] at hbind ⊢
    obtain ⟨huse, hlt, heq⟩ := bindChecked_ok t si p hbind
    exact ⟨p, huse, hlt, by rw [heq]; rfl, fun _ => rfl⟩

/-- An incoming SYN dispatched to a LISTENING socket with a free pool slot
and accept-queue room leaves the listener LISTENING on its port and puts
the spawned child in SYN_RECEIVED on the same local port. -/
theorem danp_spawn_shares_port (tb : SockTable) (pkt : DanpPacket)
    (d sr dp sp fl li ci : Nat)
    (hu : danpUnpackHeader pkt.header_raw = (d, sr, dp, sp, fl))
    (hrst : fl ≠ DANP_FLAG_RST)
    (hsyn : fl &&& DANP_FLAG_SYN ≠ 0)
    (hfind : danp_find_socket_idx tb dp sr sp = some li)
    (hlisten : (slotAt tb li).state = DanpSockState.sockListening)
    (hli : li < tb.slots.length)
    (hfree : findFreeSlot tb.slots 0 = some ci)
    (hq : (slotAt tb li).accept_queue.length < 5) :
    li ≠ ci ∧
    (slotAt (danp_socket_input_handler tb pkt).1 li).state =
      DanpSockState.sockListening ∧
    (slotAt (danp_socket_input_handler tb pkt).1 li).local_port = dp ∧
    (slotAt (danp_socket_input_handler tb pkt).1 ci).state =
      DanpSockState.sockSynReceived ∧
    (slotAt (danp_socket_input_handler tb pkt).1 ci).local_port = dp := by
  have hspec := findFreeSlot_spec tb.slots 0 ci hfree
  have hclosed : (slotAt tb ci).state = DanpSockState.sockClosed := by
    have h := hspec.2.2.1
    simpa [slotAt] using h
  have hcilen : ci < tb.slots.length := by
    have h := hspec.2.1
    simpa using h
  have hne : li ≠ ci := by
    intro h
    rw [h, hclosed] at hlisten
    exact absurd hlisten (by decide)
  have hport : (slotAt tb li).local_port = dp := find_idx_port tb dp sr sp li hfind
  have hnotres :
      ¬(((slotAt tb li).state = DanpSockState.sockEstablished ∨
         (slotAt tb li).state = DanpSockState.sockSynReceived) ∧
        fl &&& DANP_FLAG_SYN ≠ 0) := by
    rintro ⟨hor | hor, -⟩ <;> rw [hlisten] at hor <;> exact absurd hor (by decide)
  have halloc : danp_socket_alloc tb (slotAt tb li).type =
      ({ slots := tb.slots.set ci
          ⟨DanpSockState.sockOpen, (slotAt tb li).type, 0,
            tb.local_node_cfg, 0, 0, 0, 0, [], []⟩,
         active := ci :: tb.active.erase ci,
         next_ephemeral_port := tb.next_ephemeral_port,
         local_node_cfg := tb.local_node_cfg }, some ci) := by
    unfold danp_socket_alloc
    rw [hfree]
    rfl
  simp only [danp_socket_input_handler, hu]
  rw [if_neg hrst, hfind]
  dsimp only
  rw [if_neg hnotres, if_pos ⟨hlisten, hsyn⟩, halloc]
  dsimp only
  refine ⟨hne, ?_⟩
  simp only [slotAt, setSlot, List.set_set]
  rw [getD_set_ne _ ci li _ _ (Ne.symm hne),
    getD_set_self _ ci _ _ (by simpa using hcilen)]
  rw [if_pos (show (tb.slots.getD li emptySock).accept_queue.length < 5 from hq)]
  dsimp only
  rw [getD_set_self _ li _ _ (by simpa using hli),
    getD_set_ne _ li ci _ _ hne,
    getD_set_self _ ci _ _ hcilen]
  exact ⟨hlisten, hport, rfl, rfl⟩

/-- The table of the C2 scenario after socket(STREAM) on node 10. -/
def c2BindTable : SockTable :=
  (danp_socket_alloc (sockTableInit 10) DanpSockType.typeStream).1

/-- The table of the C2 scenario after bind(5) and listen. -/
def c2ListenTable : SockTable :=
  danp_listen (danp_bind c2BindTable 0 5).1 0

/-- C2 (amended): port exclusivity holds at bind time - a successful
danp_bind assigns a port that no non-CLOSED socket on the active list held
beforehand, and an explicitly requested port is bound as requested - but it
does not survive ingress dispatch: when a LISTENING socket receives a SYN
(with a free pool slot and accept-queue room), the spawned child is put in
SYN_RECEIVED with the listener's own local port, so the listener and the
child - both non-CLOSED - share that local port. -/
theorem danp_port_exclusivity_amended
    (t : SockTable) (si p : Nat)
    (tb : SockTable) (pkt : DanpPacket) (d sr dp sp fl li ci : Nat)
    (hbind : (danp_bind t si p).2 = 0)
    (hu : danpUnpackHeader pkt.header_raw = (d, sr, dp, sp, fl))
    (hrst : fl ≠ DANP_FLAG_RST)
    (hsyn : fl &&& DANP_FLAG_SYN ≠ 0)
    (hfind : danp_find_socket_idx tb dp sr sp = some li)
    (hlisten : (slotAt tb li).state = DanpSockState.sockListening)
    (hli : li < tb.slots.length)
    (hfree : findFreeSlot tb.slots 0 = some ci)
    (hq : (slotAt tb li).accept_queue.length < 5) :
    (∃ q, danp_port_in_use t q = false ∧ q < DANP_MAX_PORTS ∧
        (danp_bind t si p).1.slots =
          t.slots.set si { slotAt t si with local_port := q } ∧
        (p ≠ 0 → q = p)) ∧
    li ≠ ci ∧
    (slotAt (danp_socket_input_handler tb pkt).1 li).state =
      DanpSockState.sockListening ∧
    (slotAt (danp_socket_input_handler tb pkt).1 li).local_port = dp ∧
    (slotAt (danp_socket_input_handler tb pkt).1 ci).state =
      DanpSockState.sockSynReceived ∧
    (slotAt (danp_socket_input_handler tb pkt).1 ci).local_port = dp :=
  ⟨danp_bind_ok t si p hbind,
   danp_spawn_shares_port tb pkt d sr dp sp fl li ci hu hrst hsyn hfind
     hlisten hli hfree hq⟩

/-- Witness for the amended C2 theorem at the concrete scenario:
socket(STREAM) + bind(5) + listen on node 10, then the SYN of c2Packet. -/
theorem danp_port_exclusivity_amended_witness :
    (∃ q, danp_port_in_use c2BindTable q = false ∧ q < DANP_MAX_PORTS ∧
        (danp_bind c2BindTable 0 5).1.slots =
          c2BindTable.slots.set 0 { slotAt c2BindTable 0 with local_port := q } ∧
        ((5 : Nat) ≠ 0 → q = 5)) ∧
    (0 : Nat) ≠ 1 ∧
    (slotAt (danp_socket_input_handler c2ListenTable c2Packet).1 0).state =
      DanpSockState.sockListening ∧
    (slotAt (danp_socket_input_handler c2ListenTable c2Packet).1 0).local_port = 5 ∧
    (slotAt (danp_socket_input_handler c2ListenTable c2Packet).1 1).state =
      DanpSockState.sockSynReceived ∧
    (slotAt (danp_socket_input_handler c2ListenTable c2Packet).1 1).local_port = 5 :=
  danp_port_exclusivity_amended c2BindTable 0 5 c2ListenTable c2Packet
    10 22 5 7 1 0 1 (by decide) (by decide) (by decide) (by decide)
    (by decide) (by decide) (by decide) (by decide) (by decide)

end Danp
